import Mathlib

set_option maxRecDepth 4000

/-!
Verification development for the CAAA listserv research pipeline.

The Python sources are shallowly embedded: every definition below is a
direct transcription of a function of the repository (the source file and
function are named in each doc comment).  Python strings are modelled as
`List Char` at the working level (wrapped into `String` at the interfaces),
Python `None`-able values as `Option`, machine reals used only as JSON
numbers as `Rat`, and raised exceptions as `Except`.
-/

/-! ## Python string primitives (character-list level) -/

/-- Python whitespace as used by `str.strip()` / `str.split()`. -/
def isPyWs (c : Char) : Bool :=
  c = ' ' || c = '\t' || c = '\n' || c = '\x0d' || c = '\x0b' || c = '\x0c'

/-- Model of Python `str.strip()` on a character list. -/
def stripChars (cs : List Char) : List Char :=
  ((cs.dropWhile isPyWs).reverse.dropWhile isPyWs).reverse

/-- Model of Python `str.strip()`. -/
def pyStrip (s : String) : String := String.mk (stripChars s.data)

/-- Model of Python `str.split(sep)` for a one-character separator. -/
def splitChar (sep : Char) : List Char → List (List Char)
  | [] => [[]]
  | c :: t =>
    let r := splitChar sep t
    if c = sep then [] :: r
    else
      match r with
      | h :: t' => (c :: h) :: t'
      | [] => [[c]]

/-- Model of Python `str.split()` (split on whitespace runs, no empty parts). -/
def splitWsChars (cs : List Char) : List (List Char) :=
  ((splitChar ' ' (cs.map (fun c => if isPyWs c then ' ' else c))).filter
    (fun p => p ≠ []))

/-- Python `str.split()` at the `String` level. -/
def pySplitWs (s : String) : List String := (splitWsChars s.data).map String.mk

/-- Whether `pre` is a prefix of `cs` (comparison after `Char.toLower`, for
the `re.IGNORECASE` patterns of the sources). -/
def startsWithCI : List Char → List Char → Bool
  | _, [] => true
  | [], _ :: _ => false
  | c :: cs, p :: ps => (c.toLower = p.toLower) && startsWithCI cs ps

/-- Whether `pat` is a prefix of `cs` (exact). -/
def isPrefixOfB : List Char → List Char → Bool
  | _, [] => true
  | [], _ :: _ => false
  | c :: cs, p :: ps => (c = p) && startsWithExact cs ps
where startsWithExact : List Char → List Char → Bool
  | _, [] => true
  | [], _ :: _ => false
  | c :: cs, p :: ps => (c = p) && startsWithExact cs ps

/-- Fuel-driven worker for `replChars` (structural recursion so the kernel
can evaluate it; the fuel never runs out when it starts at the input's
length, since a non-empty pattern always consumes at least one
character). -/
def replCharsAux (pat rep : List Char) : Nat → List Char → List Char
  | _, [] => if pat = [] then rep else []
  | 0, _ :: _ => []
  | fuel + 1, c :: cs =>
    if pat ≠ [] ∧ isPrefixOfB (c :: cs) pat then
      rep ++ replCharsAux pat rep fuel ((c :: cs).drop pat.length)
    else if pat = [] then
      rep ++ c :: replCharsAux pat rep fuel cs
    else
      c :: replCharsAux pat rep fuel cs

/-- Model of Python `str.replace(pat, rep)` (all non-overlapping occurrences,
left to right; an empty pattern inserts `rep` around every character, as in
Python). -/
def replChars (pat rep cs : List Char) : List Char :=
  replCharsAux pat rep cs.length cs

/-- Python `str.replace` at the `String` level. -/
def pyReplace (s pat rep : String) : String :=
  String.mk (replChars pat.data rep.data s.data)

/-! ## Decimal digits -/

/-- The decimal digit character for `n % 10`-style values (cases on 0..9). -/
def digitChar10 (n : Nat) : Char :=
  match n with
  | 0 => '0' | 1 => '1' | 2 => '2' | 3 => '3' | 4 => '4'
  | 5 => '5' | 6 => '6' | 7 => '7' | 8 => '8' | _ => '9'

/-- Fuel-driven worker for `natChars` (structural recursion for kernel
evaluation; a fuel of `n + 1` always suffices). -/
def natCharsAux : Nat → Nat → List Char
  | 0, _ => []
  | fuel + 1, n =>
    if n < 10 then [digitChar10 n]
    else natCharsAux fuel (n / 10) ++ [digitChar10 (n % 10)]

/-- Decimal rendering of a natural number as a character list (Python
`str(n)` for `n ≥ 0`). -/
def natChars (n : Nat) : List Char := natCharsAux (n + 1) n

/-- Python `str(n)` for a natural number. -/
def natStr (n : Nat) : String := String.mk (natChars n)

def isDigitChar (c : Char) : Bool := 48 ≤ c.toNat && c.toNat ≤ 57

/-- Numeric value of a digit character list (left fold, no validation). -/
def charsToNat (cs : List Char) : Nat :=
  cs.foldl (fun a c => a * 10 + (c.toNat - 48)) 0

/-- Parse a non-empty all-digit character list as a natural number
(otherwise `none`). -/
def parseNatChars (cs : List Char) : Option Nat :=
  if cs ≠ [] ∧ cs.all isDigitChar then some (charsToNat cs) else none

/-- Model of Python `str.zfill(w)`: left-pad with `'0'` to width `w`,
keeping a leading sign in front of the padding. -/
def zfillChars (w : Nat) : List Char → List Char
  | [] => List.replicate w '0'
  | c :: t =>
    if w ≤ (c :: t).length then c :: t
    else if c = '+' ∨ c = '-' then
      c :: List.replicate (w - (c :: t).length) '0' ++ t
    else List.replicate (w - (c :: t).length) '0' ++ c :: t

/-! ## Python dict with string keys (insertion order, in-place overwrite) -/

/-- A form-field value: the upstream form map holds strings, plus the two
integer scraper caps. -/
inductive FormVal where
  | s (v : String)
  | n (v : Nat)
deriving DecidableEq, Repr

abbrev PyDict := List (String × FormVal)

/-- Python `d[k] = v`: overwrite in place if the key exists, else append. -/
def dinsert (d : PyDict) (k : String) (v : FormVal) : PyDict :=
  match d with
  | [] => [(k, v)]
  | (k', v') :: t => if k' = k then (k, v) :: t else (k', v') :: dinsert t k v

/-- Python `d.get(k)`. -/
def dget (d : PyDict) (k : String) : Option FormVal :=
  match d with
  | [] => none
  | (k', v') :: t => if k' = k then some v' else dget t k

/-- Conditional insertion, mirroring `if cond: form_data[k] = v`. -/
def dins (c : Bool) (k : String) (v : FormVal) (d : PyDict) : PyDict :=
  if c then dinsert d k v else d

/-! ## Dates -/

/-- A Python `datetime.date`-like value (no validity baked into the type;
theorems carry explicit range hypotheses). -/
structure PyDate where
  year : Nat
  month : Nat
  day : Nat
deriving DecidableEq, Repr

def isLeapYear (y : Nat) : Bool :=
  y % 4 = 0 && (y % 100 ≠ 0 || y % 400 = 0)

def daysInMonth (y m : Nat) : Nat :=
  if m = 2 then (if isLeapYear y then 29 else 28)
  else if m = 4 ∨ m = 6 ∨ m = 9 ∨ m = 11 then 30
  else 31

/-- Calendar validity used for round-trip statements (years restricted to
four digits, where `strftime('%Y')` output is unambiguous). -/
def validDate (d : PyDate) : Bool :=
  1000 ≤ d.year && d.year ≤ 9999 && 1 ≤ d.month && d.month ≤ 12 &&
    1 ≤ d.day && d.day ≤ daysInMonth d.year d.month

/-- Model of `date.strftime('%m/%d/%Y')` as used by
`SearchParams.to_form_data` (src/search_params.py). -/
def strftime_mdY (d : PyDate) : String :=
  String.mk (zfillChars 2 (natChars d.month) ++ '/' ::
    (zfillChars 2 (natChars d.day) ++ '/' :: natChars d.year))

/-- Model of `datetime.strptime(s, '%m/%d/%Y')` as used by the worker when
it reloads the stored form map (src/run_search_worker.py): three
slash-separated all-digit fields of widths 1-2 / 1-2 / 1-4, validated as a
calendar date; `none` models the `ValueError` path. -/
def strptime_mdY (s : String) : Option PyDate :=
  match splitChar '/' s.data with
  | [ms, ds, ys] =>
    match parseNatChars ms, parseNatChars ds, parseNatChars ys with
    | some m, some d, some y =>
      if ms.length ≤ 2 ∧ ds.length ≤ 2 ∧ ys.length ≤ 4 ∧
          1 ≤ m ∧ m ≤ 12 ∧ 1 ≤ y ∧ y ≤ 9999 ∧ 1 ≤ d ∧
          d ≤ daysInMonth y m then
        some ⟨y, m, d⟩
      else none
    | _, _, _ => none
  | _ => none

/-- Model of `date.fromisoformat` (`YYYY-MM-DD`) as used by
`QueryEnhancer._create_search_params` (src/query_enhancer.py). -/
def parse_iso_date (s : String) : Option PyDate :=
  match splitChar '-' s.data with
  | [ys, ms, ds] =>
    match parseNatChars ys, parseNatChars ms, parseNatChars ds with
    | some y, some m, some d =>
      if ys.length = 4 ∧ ms.length = 2 ∧ ds.length = 2 ∧
          1 ≤ m ∧ m ≤ 12 ∧ 1 ≤ y ∧ y ≤ 9999 ∧ 1 ≤ d ∧
          d ≤ daysInMonth y m then
        some ⟨y, m, d⟩
      else none
    | _, _, _ => none
  | _ => none

/-! ## SearchParams (src/search_params.py) -/

/-- The `SearchParams` dataclass of src/search_params.py.  Optional string
fields are `Option String` (Python `None` vs a string); the three
`Literal`-annotated fields are plain strings with the dataclass defaults
(Python does not enforce the annotation). -/
structure SearchParams where
  keyword : Option String := none
  keywords_all : Option String := none
  keywords_phrase : Option String := none
  keywords_any : Option String := none
  keywords_exclude : Option String := none
  author_first_name : Option String := none
  author_last_name : Option String := none
  posted_by : Option String := none
  date_from : Option PyDate := none
  date_to : Option PyDate := none
  listserv : String := "all"
  search_in : String := "subject_and_body"
  attachment_filter : String := "all"
  max_pages : Nat := 10
  max_messages : Nat := 100
deriving DecidableEq, Repr

/-- Python truthiness of an optional string (`if self.field:`). -/
def truthy (o : Option String) : Bool :=
  match o with
  | none => false
  | some s => s ≠ ""

/-- `SearchParams.to_form_data` (src/search_params.py lines 91-146),
transcribed statement by statement; `dins` is one `if cond:
form_data[k] = v` step, and the two scraper caps are written
unconditionally at the end exactly as in the source. -/
def to_form_data (p : SearchParams) : PyDict :=
  let d : PyDict := []
  let d := dins (truthy p.keyword) "s_fname" (.s (p.keyword.getD "")) d
  let d := dins (truthy p.author_first_name) "s_fname"
    (.s (p.author_first_name.getD "")) d
  let d := dins (truthy p.author_last_name) "s_lname"
    (.s (p.author_last_name.getD "")) d
  let d := dins (truthy p.posted_by) "s_postedby" (.s (p.posted_by.getD "")) d
  let d := dins p.date_from.isSome "s_postdatefrom"
    (.s (strftime_mdY (p.date_from.getD ⟨1, 1, 1⟩))) d
  let d := dins p.date_to.isSome "s_postdateto"
    (.s (strftime_mdY (p.date_to.getD ⟨1, 1, 1⟩))) d
  let d := dins (truthy p.keywords_all) "s_key_all"
    (.s (p.keywords_all.getD "")) d
  let d := dins (truthy p.keywords_phrase) "s_key_phrase"
    (.s (p.keywords_phrase.getD "")) d
  let d := dins (truthy p.keywords_any) "s_key_one"
    (.s (p.keywords_any.getD "")) d
  let d := dins (truthy p.keywords_exclude) "s_key_x"
    (.s (p.keywords_exclude.getD "")) d
  let d := dins (p.listserv ≠ "all") "s_list" (.s p.listserv) d
  let d := dins (p.search_in = "subject_only") "s_cat" (.s "1") d
  let d := dins (p.attachment_filter = "with_attachments") "s_attachment"
    (.s "1") d
  let d := dins (p.attachment_filter = "without_attachments") "s_attachment"
    (.s "0") d
  let d := dinsert d "max_messages" (.n p.max_messages)
  let d := dinsert d "max_pages" (.n p.max_pages)
  d

/-- String-typed dictionary read (`search_params_dict.get(k)`; the stored
form maps only hold strings at these keys). -/
def dgetStr (d : PyDict) (k : String) : Option String :=
  match dget d k with
  | some (.s v) => some v
  | _ => none

/-- The date-reload step of the worker: `get`, truthiness check, then
`strptime` with the `ValueError` fallback to `None`
(src/run_search_worker.py lines 60-73). -/
def reparse_date (o : Option String) : Option PyDate :=
  match o with
  | some s => if s = "" then none else strptime_mdY s
  | none => none

/-- The worker's reconstruction of a `SearchParams` from the stored form
map (src/run_search_worker.py lines 59-107), including the `s_fname`
disambiguation: with `s_lname` present the value is read back as
`author_first_name`, otherwise as `keyword`. -/
def reparse_params (d : PyDict) : SearchParams :=
  let s_fname := dgetStr d "s_fname"
  let s_lname := dgetStr d "s_lname"
  let keyword_value :=
    if truthy s_fname then (if truthy s_lname then none else s_fname) else none
  let author_first_name_value :=
    if truthy s_fname then (if truthy s_lname then s_fname else none) else none
  { keyword := keyword_value
    keywords_all := dgetStr d "s_key_all"
    keywords_phrase := dgetStr d "s_key_phrase"
    keywords_any := dgetStr d "s_key_one"
    keywords_exclude := dgetStr d "s_key_x"
    listserv := (dgetStr d "s_list").getD "all"
    date_from := reparse_date (dgetStr d "s_postdatefrom")
    date_to := reparse_date (dgetStr d "s_postdateto")
    posted_by := dgetStr d "s_postedby"
    author_first_name := author_first_name_value
    author_last_name := s_lname
    search_in :=
      if dgetStr d "s_cat" = some "1" then "subject_only"
      else "subject_and_body"
    attachment_filter :=
      if dgetStr d "s_attachment" = some "1" then "with_attachments"
      else if dgetStr d "s_attachment" = some "0" then "without_attachments"
      else "all"
    max_messages := match dget d "max_messages" with
      | some (.n v) => v
      | _ => 100
    max_pages := match dget d "max_pages" with
      | some (.n v) => v
      | _ => 10 }

/-- Value of an optional-string field in the emitted form map. -/
def formStr (o : Option String) : Option FormVal :=
  if truthy o then some (.s (o.getD "")) else none

/-- The optional-string payload of a form value. -/
def strOfVal (x : Option FormVal) : Option String :=
  match x with
  | some (.s v) => some v
  | _ => none

/-- A field is either unset or a non-empty string (`None`-vs-`""` both read
back as absent, so the round trip canonicalizes them together). -/
def okStr (o : Option String) : Bool :=
  match o with
  | none => true
  | some s => s ≠ ""

/-- An optional date is either unset or a valid four-digit-year date. -/
def okDate (o : Option PyDate) : Bool :=
  match o with
  | none => true
  | some d => validDate d

/-! ## Retriever (src/scraper.py) -/

/-- `CAAAScraper._parse_date` (src/scraper.py lines 461-472): split the
upstream date on `/`; with exactly three parts, a two-character year is
prefixed with `20` and month/day are `zfill(2)`-padded into `YYYY-MM-DD`;
anything else yields `None` (the bare `except` makes the function total). -/
def parse_date (s : String) : Option String :=
  match splitChar '/' s.data with
  | [mo, da, ye] =>
    let ye2 := if ye.length = 2 then '2' :: '0' :: ye else ye
    some (String.mk (ye2 ++ '-' :: (zfillChars 2 mo ++ '-' :: zfillChars 2 da)))
  | _ => none

/-- Substring containment (Python `in` on strings). -/
def containsSub (cs pat : List Char) : Bool :=
  isPrefixOfB cs pat ||
    match cs with
    | [] => false
    | _ :: t => containsSub t pat

/-- `CAAAScraper._extract_email` (src/scraper.py lines 474-479): the first
`<...>` group with at least one character that is not `>`. -/
def extract_email_chars : List Char → Option (List Char)
  | [] => none
  | c :: rest =>
    if c = '<' then
      let grab := rest.takeWhile (fun x => x ≠ '>')
      if grab ≠ [] ∧ grab.length < rest.length then some grab
      else extract_email_chars rest
    else extract_email_chars rest

def extract_email (s : String) : Option String :=
  (extract_email_chars s.data).map String.mk

/-- One result-row of the upstream table, at the granularity the scraper
reads it: whether the row holds a bold (header) cell, the stripped-to-be
cell texts, and the subject anchor (inner text and `href`) when present
(src/scraper.py lines 187-228; a missing `href` is the empty string, as
`get_attribute(..) or ""` produces). -/
structure PageRow where
  hasBoldCell : Bool
  cells : List String
  subjectLink : Option (String × String)
deriving DecidableEq, Repr

/-- One extracted result-row record (src/scraper.py lines 219-228). -/
structure MsgInfo where
  message_id : String
  date : String
  fromF : String
  subject : String
  list : String
  has_attachment : Bool
  position : Nat
  page : Nat
deriving DecidableEq, Repr

/-- The message-id extraction from the subject link's JS handler
(src/scraper.py lines 210-216): guarded by `"b_loadmsgjson" in onclick`,
then `onclick.split("(")[1].split(",")[0].strip()` with the bare `except`
mapping an out-of-range index to `None`. -/
def extract_msg_id (onclick : String) : Option String :=
  if containsSub onclick.data "b_loadmsgjson".data then
    match splitChar '(' onclick.data with
    | _ :: part1 :: _ =>
      some (String.mk (stripChars
        (match splitChar ',' part1 with
         | p0 :: _ => p0
         | [] => [])))
    | _ => none
  else none

/-- The per-row filter of `_extract_message_ids`: header rows, rows with
fewer than five cells, rows without a subject anchor and rows without a
parsed (truthy) message id are skipped. -/
def rowToMsg (r : PageRow) (pos page : Nat) : Option MsgInfo :=
  if r.hasBoldCell then none
  else if r.cells.length < 5 then none
  else
    match r.subjectLink with
    | none => none
    | some (txt, href) =>
      match extract_msg_id href with
      | some mid =>
        if mid ≠ "" then
          some { message_id := mid
                 date := pyStrip (r.cells.getD 0 "")
                 fromF := pyStrip (r.cells.getD 1 "")
                 list := pyStrip (r.cells.getD 2 "")
                 has_attachment := pyStrip (r.cells.getD 3 "") ≠ ""
                 subject := pyStrip txt
                 position := pos
                 page := page }
        else none
      | none => none

/-- The per-page row loop, threading the running position
`len(message_ids) + len(page_messages) + 1`. -/
def extractPage : List PageRow → Nat → Nat → List MsgInfo
  | [], _, _ => []
  | r :: rest, accLen, page =>
    match rowToMsg r (accLen + 1) page with
    | some mi => mi :: extractPage rest (accLen + 1) page
    | none => extractPage rest accLen page

/-- The pagination loop of `CAAAScraper._extract_message_ids`
(src/scraper.py lines 159-248): `pages` is the sequence of result pages
the browser can reach, so an exhausted list models both the missing
results table and a failing next-page navigation.  The loop stops when
`max_pages` is passed, when `max_messages` is reached, or when no next
page exists. -/
def extractLoop : List (List PageRow) → Nat → Nat → Nat → List MsgInfo →
    List MsgInfo
  | pages, currentPage, maxPages, maxMessages, acc =>
    if currentPage > maxPages ∨ maxMessages ≤ acc.length then acc
    else
      match pages with
      | [] => acc
      | rows :: rest =>
        let acc2 := acc ++ extractPage rows acc.length currentPage
        if maxMessages ≤ acc2.length then acc2
        else if currentPage < maxPages then
          match rest with
          | [] => acc2
          | _ :: _ =>
            extractLoop rest (currentPage + 1) maxPages maxMessages acc2
        else acc2

/-- `_extract_message_ids`: run the loop from page 1 and trim the result
to `max_messages` (src/scraper.py line 251). -/
def extract_message_ids (pages : List (List PageRow))
    (maxPages maxMessages : Nat) : List MsgInfo :=
  (extractLoop pages 1 maxPages maxMessages []).take maxMessages

/-- The cleaned message window content returned by
`_extract_clean_message_text` (all four keys are always present). -/
structure CleanData where
  fromF : String
  dateF : String
  subjectF : String
  body : String
deriving DecidableEq, Repr

/-- A fully-populated message record as `scrape` returns it
(src/scraper.py lines 376-387). -/
structure MsgData where
  caaa_message_id : String
  post_date : Option String
  from_name : Option String
  from_email : Option String
  listserv : Option String
  subject : Option String
  body : Option String
  has_attachment : Bool
  position : Nat
  page : Nat
deriving DecidableEq, Repr

/-- The result-dict assembly of `_fetch_message_content` (src/scraper.py
lines 376-387); the browser interaction itself is the caller's oracle. -/
def fetch_result (info : MsgInfo) (clean : CleanData) : MsgData :=
  { caaa_message_id := info.message_id
    post_date := parse_date info.date
    from_name := some clean.fromF
    from_email := extract_email clean.fromF
    listserv := some info.list
    subject := some clean.subjectF
    body := some clean.body
    has_attachment := info.has_attachment
    position := info.position
    page := info.page }

/-- `CAAAScraper.scrape` (src/scraper.py lines 24-84): extract the
bounded id list, then fetch each message; a `none` from the fetch oracle
models the skipped per-message failure paths (timeout, missing window). -/
def scrape (pages : List (List PageRow))
    (fetchOracle : MsgInfo → Option CleanData) (p : SearchParams) :
    List MsgData :=
  (extract_message_ids pages p.max_pages p.max_messages).filterMap
    (fun mi => (fetchOracle mi).map (fetch_result mi))

/-! ## Store (src/database.py) -/

/-- A row of the `messages` table as `get_or_create_message` inserts it. -/
structure MessageRow where
  caaa_message_id : String
  post_date : Option String
  from_name : Option String
  from_email : Option String
  listserv : Option String
  subject : Option String
  body : Option String
  body_length : Nat
  has_attachment : Bool
deriving DecidableEq, Repr

/-- The analysis dict passed to `Database.save_analysis`. -/
structure AnalysisInput where
  is_relevant : Bool
  confidence : Option Rat := none
  ai_reasoning : Option String := none
  ai_model : Option String := none
  ai_tokens_used : Option Nat := none
  ai_cost_usd : Option Rat := none
deriving DecidableEq, Repr

/-- A row of the `analyses` table.  `analyzed_at` is `none` while only the
column default (outside src/) has written it; the upsert's
`analyzed_at = NOW()` sets it. -/
structure AnalysisRow where
  is_relevant : Bool
  confidence : Option Rat
  ai_reasoning : Option String
  ai_model : Option String
  ai_tokens_used : Option Nat
  ai_cost_usd : Option Rat
  analyzed_at : Option Nat
deriving DecidableEq, Repr

structure SynthesisRecord where
  score : Int
  evaluation : String
  reasoning : String
deriving DecidableEq, Repr

/-- The Store state for one search: the global `messages` table (rows keyed
by their serial id), and this search's `search_results`
(message id, position, page), `analyses` (keyed by message id) and
synthesis row. -/
structure DBState where
  messages : List (Nat × MessageRow) := []
  nextId : Nat := 0
  searchResults : List (Nat × Nat × Nat) := []
  analyses : List (Nat × AnalysisRow) := []
  synthesis : Option SynthesisRecord := none
deriving DecidableEq, Repr

/-- `SELECT id FROM messages WHERE caaa_message_id = %s`. -/
def findMsg (db : DBState) (mid : String) : Option (Nat × MessageRow) :=
  db.messages.find? (fun e => e.2.caaa_message_id = mid)

def findMsgId (db : DBState) (mid : String) : Option Nat :=
  (findMsg db mid).map (fun e => e.1)

/-- `Database.get_or_create_message` (src/database.py lines 127-178): the
existing row is returned untouched; otherwise a new row is inserted with
`body_length = len(body) if body else 0`. -/
def get_or_create_message (db : DBState) (caaa_message_id : String)
    (d : MsgData) : DBState × Nat :=
  match findMsg db caaa_message_id with
  | some (i, _) => (db, i)
  | none =>
    let row : MessageRow :=
      { caaa_message_id := caaa_message_id
        post_date := d.post_date
        from_name := d.from_name
        from_email := d.from_email
        listserv := d.listserv
        subject := d.subject
        body := d.body
        body_length := (match d.body with
          | some b => if b ≠ "" then b.length else 0
          | none => 0)
        has_attachment := d.has_attachment }
    ({ db with
        messages := db.messages ++ [(db.nextId, row)]
        nextId := db.nextId + 1 },
      db.nextId)

/-- `Database.add_search_result` (src/database.py lines 197-207):
`ON CONFLICT (search_id, message_id) DO NOTHING`. -/
def add_search_result (db : DBState) (message_id pos page : Nat) : DBState :=
  if db.searchResults.any (fun t => t.1 = message_id) then db
  else { db with searchResults := db.searchResults ++ [(message_id, pos, page)] }

def alookup (l : List (Nat × AnalysisRow)) (mid : Nat) : Option AnalysisRow :=
  (l.find? (fun e => e.1 = mid)).map (fun e => e.2)

/-- `Database.save_analysis` (src/database.py lines 213-249): insert, or on
conflict update only `is_relevant`, `confidence`, `ai_reasoning` and
`analyzed_at = NOW()` — `ai_model`, `ai_tokens_used` and `ai_cost_usd`
keep the values of the first insert. -/
def save_analysis (db : DBState) (message_id : Nat) (a : AnalysisInput)
    (now : Nat) : DBState :=
  match alookup db.analyses message_id with
  | some _ =>
    { db with analyses := db.analyses.map (fun e =>
        if e.1 = message_id then
          (e.1, { is_relevant := a.is_relevant
                  confidence := a.confidence
                  ai_reasoning := a.ai_reasoning
                  ai_model := e.2.ai_model
                  ai_tokens_used := e.2.ai_tokens_used
                  ai_cost_usd := e.2.ai_cost_usd
                  analyzed_at := some now })
        else e) }
  | none =>
    { db with analyses := db.analyses ++
        [(message_id,
          { is_relevant := a.is_relevant
            confidence := a.confidence
            ai_reasoning := a.ai_reasoning
            ai_model := a.ai_model
            ai_tokens_used := a.ai_tokens_used
            ai_cost_usd := a.ai_cost_usd
            analyzed_at := none })] }

/-- `Database.analysis_exists` (src/database.py lines 251-262). -/
def analysis_exists (db : DBState) (message_id : Nat) : Bool :=
  (alookup db.analyses message_id).isSome

/-- Modelled from the spec: `Database.save_synthesis_result` is called by
the worker (src/run_search_worker.py) but not defined in src/database.py;
spec section 4.2 gives `save_synthesis(search_id, synthesis)` with at most
one synthesis per search, so the search's synthesis slot is set. -/
def save_synthesis_result (db : DBState) (s : SynthesisRecord) : DBState :=
  { db with synthesis := some s }

def insertByPos (x : Nat × Nat × Nat) :
    List (Nat × Nat × Nat) → List (Nat × Nat × Nat)
  | [] => [x]
  | y :: t => if x.2.1 ≤ y.2.1 then x :: y :: t else y :: insertByPos x t

def sortByPos (l : List (Nat × Nat × Nat)) : List (Nat × Nat × Nat) :=
  l.foldr insertByPos []

/-- A row of `Database.get_relevant_results` (src/database.py lines
268-293): `search_results` joined with `messages` and left-joined with
`analyses`, ordered by `result_position`. -/
structure RelRow where
  message_id : Nat
  row : MessageRow
  analysis : Option AnalysisRow
  position : Nat
  page : Nat
deriving DecidableEq, Repr

def get_relevant_results (db : DBState) : List RelRow :=
  (sortByPos db.searchResults).filterMap (fun t =>
    match db.messages.find? (fun e => e.1 = t.1) with
    | some (i, r) =>
      some { message_id := i, row := r, analysis := alookup db.analyses t.1,
             position := t.2.1, page := t.2.2 }
    | none => none)

/-- The worker's relevance filter over the joined rows
(src/run_search_worker.py line 141: `r.get('is_relevant')` truthiness,
`NULL` rows excluded). -/
def relevantRows (db : DBState) : List RelRow :=
  (get_relevant_results db).filter (fun r =>
    match r.analysis with
    | some a => a.is_relevant
    | none => false)

/-! ## Worker (src/run_search_worker.py, src/orchestrator.py) -/

/-- The message-storing loop of the worker (src/run_search_worker.py lines
120-122): `get_or_create_message` then `add_search_result` per scraped
message. -/
def storeLoop (db : DBState) : List MsgData → DBState
  | [] => db
  | m :: rest =>
    let r := get_or_create_message db m.caaa_message_id m
    storeLoop (add_search_result r.1 r.2 m.position m.page) rest

/-- `CAAAOrchestrator._analyze_relevance` (src/orchestrator.py lines
225-276): per message, look up its row id (a missing row would make
`fetchone()[0]` raise, which the worker's catch-all turns into a failed
search), skip if already analyzed, else score via the reasoning oracle and
persist; per-message scoring exceptions are absorbed.  Returns the new
relevant count. -/
def analyzeLoop (db : DBState) (cnt : Nat) (msgs : List MsgData)
    (oracle : MsgData → Except String AnalysisInput) (now : Nat) :
    Except String (DBState × Nat) :=
  match msgs with
  | [] => .ok (db, cnt)
  | m :: rest =>
    match findMsgId db m.caaa_message_id with
    | none => .error "message row not found"
    | some i =>
      if analysis_exists db i then analyzeLoop db cnt rest oracle now
      else
        match oracle m with
        | .ok a =>
          analyzeLoop (save_analysis db i a now)
            (if a.is_relevant then cnt + 1 else cnt) rest oracle now
        | .error _ => analyzeLoop db cnt rest oracle now

structure WorkerResult where
  status : String
  totalFound : Option Nat
  totalRelevant : Option Nat
  db : DBState
deriving DecidableEq, Repr

/-- The insufficient-data synthesis record the worker persists directly
(src/run_search_worker.py lines 166-172). -/
def insufficient_synthesis (doctor_name : String) (n : Nat) :
    SynthesisRecord :=
  { score := 0
    evaluation := "insufficient_data"
    reasoning := "Only found " ++ natStr n ++ " relevant messages about " ++
      doctor_name ++
      ". Need at least 3 messages to make a reliable evaluation." }

/-- The post-scrape body of `run_search_worker.main` (src/run_search_worker.py
lines 114-205): store and link the scraped messages, then — only for
`query_type == "doctor_evaluation"` — score, re-read the relevant rows and
persist a synthesis (the scorer's verdict when at least 3 relevant rows
exist, an error record when the synthesizer raises, the insufficient-data
record otherwise); every other query type runs the plain scoring path with
no synthesis.  Uncaught exceptions mark the search failed. -/
def run_search_worker (query query_type : String) (aiAvailable : Bool)
    (msgs : List MsgData)
    (scoreOracle : MsgData → Except String AnalysisInput)
    (synthOracle : String → List RelRow → Except String SynthesisRecord)
    (now : Nat) : WorkerResult :=
  let db1 := storeLoop {} msgs
  if query_type = "doctor_evaluation" then
    let doctor_name := pyStrip (pyReplace query "Evaluate doctor:" "")
    if aiAvailable ∧ 0 < msgs.length then
      match analyzeLoop db1 0 msgs scoreOracle now with
      | .error _ =>
        { status := "failed", totalFound := some msgs.length,
          totalRelevant := none, db := db1 }
      | .ok (db2, relCnt) =>
        let rel := relevantRows db2
        let db3 :=
          if 3 ≤ rel.length then
            match synthOracle doctor_name rel with
            | .ok s => save_synthesis_result db2 s
            | .error e =>
              save_synthesis_result db2
                { score := 0, evaluation := "error",
                  reasoning := "Error during synthesis: " ++ e }
          else
            save_synthesis_result db2
              (insufficient_synthesis doctor_name rel.length)
        { status := "completed", totalFound := some msgs.length,
          totalRelevant := some relCnt, db := db3 }
    else if msgs.length = 0 then
      { status := "completed", totalFound := some 0, totalRelevant := some 0,
        db := save_synthesis_result db1
          { score := 0, evaluation := "insufficient_data",
            reasoning := "No messages found about this doctor." } }
    else
      { status := "completed", totalFound := some msgs.length,
        totalRelevant := some msgs.length, db := db1 }
  else
    if aiAvailable ∧ 0 < msgs.length then
      match analyzeLoop db1 0 msgs scoreOracle now with
      | .error _ =>
        { status := "failed", totalFound := some msgs.length,
          totalRelevant := none, db := db1 }
      | .ok (db2, relCnt) =>
        { status := "completed", totalFound := some msgs.length,
          totalRelevant := some relCnt, db := db2 }
    else
      { status := "completed", totalFound := some msgs.length,
        totalRelevant := some msgs.length, db := db1 }

/-- The evaluation-mode query types of the HTTP layer (src/app.py lines
118 and 167-178, src/run_search_worker.py). -/
def evaluationModes : List String :=
  ["doctor_evaluation", "judge_evaluation", "adjuster_evaluation",
   "defense_attorney_evaluation", "insurance_company_evaluation"]

/-- A minimal scraped message for concrete runs. -/
def sampleMsg (mid : String) (pos : Nat) : MsgData :=
  { caaa_message_id := mid, post_date := none, from_name := some "A",
    from_email := none, listserv := some "lawnet", subject := some "s",
    body := some "body text", has_attachment := false, position := pos,
    page := 1 }

/-- A relevant verdict for concrete runs. -/
def sampleRelevant : AnalysisInput :=
  { is_relevant := true, confidence := some 1, ai_reasoning := some "r",
    ai_model := some "m", ai_tokens_used := some 10, ai_cost_usd := some 0 }

/-! ## JSON (model of Python json.loads for the LLM-reply parsers) -/

/-- JSON values; numbers are exact rationals (the replies' confidence
literals are short decimals, so the rational model is faithful for every
value the pipeline compares). -/
inductive Json where
  | null
  | jbool (b : Bool)
  | jnum (q : Rat)
  | jstr (s : String)
  | jarr (xs : List Json)
  | jobj (kvs : List (String × Json))

/-- JSON whitespace as accepted between tokens by `json.loads`. -/
def skipWs : List Char → List Char
  | [] => []
  | c :: t =>
    if c = ' ' ∨ c = '\t' ∨ c = '\n' ∨ c = '\x0d' then skipWs t else c :: t

def hexVal (c : Char) : Option Nat :=
  if 48 ≤ c.toNat ∧ c.toNat ≤ 57 then some (c.toNat - 48)
  else if 97 ≤ c.toNat ∧ c.toNat ≤ 102 then some (c.toNat - 87)
  else if 65 ≤ c.toNat ∧ c.toNat ≤ 70 then some (c.toNat - 55)
  else none

/-- JSON string body (after the opening quote), with the standard escapes
(fuel-driven; the input's length is always enough fuel). -/
def pStringAux : Nat → List Char → List Char → Option (String × List Char)
  | 0, _, _ => none
  | fuel + 1, acc, cs =>
    match cs with
    | [] => none
    | c :: rest =>
      if c = '"' then some (String.mk acc.reverse, rest)
      else if c = '\\' then
        match rest with
        | [] => none
        | e :: rest2 =>
          if e = '"' then pStringAux fuel ('"' :: acc) rest2
          else if e = '\\' then pStringAux fuel ('\\' :: acc) rest2
          else if e = '/' then pStringAux fuel ('/' :: acc) rest2
          else if e = 'b' then pStringAux fuel ('\x08' :: acc) rest2
          else if e = 'f' then pStringAux fuel ('\x0c' :: acc) rest2
          else if e = 'n' then pStringAux fuel ('\n' :: acc) rest2
          else if e = 'r' then pStringAux fuel ('\x0d' :: acc) rest2
          else if e = 't' then pStringAux fuel ('\t' :: acc) rest2
          else if e = 'u' then
            match rest2 with
            | h1 :: h2 :: h3 :: h4 :: rest3 =>
              match hexVal h1, hexVal h2, hexVal h3, hexVal h4 with
              | some a, some b, some c3, some d =>
                pStringAux fuel
                  (Char.ofNat (((a * 16 + b) * 16 + c3) * 16 + d) :: acc)
                  rest3
              | _, _, _, _ => none
            | _ => none
          else none
      else pStringAux fuel (c :: acc) rest

/-- Assemble a decimal literal exactly: sign, integer part, fraction
digits (as value `frac` over `10 ^ fdigits`) and decimal exponent. -/
def decimalRat (neg : Bool) (ipart frac fdigits : Nat) (ex : Int) : Rat :=
  let mant : Nat := ipart * 10 ^ fdigits + frac
  let num : Int := if neg then -(mant : Int) else (mant : Int)
  if 0 ≤ ex then mkRat (num * 10 ^ ex.toNat) (10 ^ fdigits)
  else mkRat num (10 ^ fdigits * 10 ^ (-ex).toNat)

/-- JSON number: optional minus, integer part without leading zeros,
optional fraction and exponent; the value is exact as a rational. -/
def pNum (cs : List Char) : Option (Rat × List Char) :=
  let negp : Bool × List Char :=
    match cs with
    | c :: t => if c = '-' then (true, t) else (false, cs)
    | [] => (false, cs)
  let neg := negp.1
  let cs1 := negp.2
  let ds := cs1.takeWhile isDigitChar
  if ds = [] then none
  else if 1 < ds.length ∧ ds.headD '0' = '0' then none
  else
    let rest := cs1.drop ds.length
    let fracp : Option (Nat × Nat × List Char) :=
      match rest with
      | '.' :: t =>
        let fs := t.takeWhile isDigitChar
        if fs = [] then none
        else some (charsToNat fs, fs.length, t.drop fs.length)
      | _ => some (0, 0, rest)
    match fracp with
    | none => none
    | some (frac, fdigits, rest2) =>
      match rest2 with
      | e :: t =>
        if e = 'e' ∨ e = 'E' then
          let sgnt : Bool × List Char :=
            match t with
            | c :: t2 =>
              if c = '+' then (false, t2)
              else if c = '-' then (true, t2)
              else (false, t)
            | [] => (false, t)
          let es := sgnt.2.takeWhile isDigitChar
          if es = [] then none
          else
            let ev : Int := if sgnt.1 then -(charsToNat es : Int)
              else (charsToNat es : Int)
            some (decimalRat neg (charsToNat ds) frac fdigits ev,
              sgnt.2.drop es.length)
        else some (decimalRat neg (charsToNat ds) frac fdigits 0, rest2)
      | [] => some (decimalRat neg (charsToNat ds) frac fdigits 0, rest2)

/-- Python `dict` insertion while building an object (duplicate keys: the
later one overwrites in place, as in `json.loads`). -/
def jinsert (kvs : List (String × Json)) (k : String) (v : Json) :
    List (String × Json) :=
  match kvs with
  | [] => [(k, v)]
  | (k', v') :: t => if k' = k then (k, v) :: t else (k', v') :: jinsert t k v

mutual

/-- Recursive-descent JSON value parser (fuel-driven; `length + 1` fuel
always suffices since every nesting level consumes input). -/
def pJson : Nat → List Char → Option (Json × List Char)
  | 0, _ => none
  | fuel + 1, cs =>
    let cs := skipWs cs
    match cs with
    | [] => none
    | c :: rest =>
      if c = 't' then
        if isPrefixOfB cs "true".data then some (.jbool true, cs.drop 4)
        else none
      else if c = 'f' then
        if isPrefixOfB cs "false".data then some (.jbool false, cs.drop 5)
        else none
      else if c = 'n' then
        if isPrefixOfB cs "null".data then some (.null, cs.drop 4)
        else none
      else if c = '"' then
        match pStringAux rest.length.succ [] rest with
        | some (s, r) => some (.jstr s, r)
        | none => none
      else if c = '[' then
        match skipWs rest with
        | ']' :: r2 => some (.jarr [], r2)
        | r1 => pElems fuel r1 []
      else if c = '\x7b' then
        match skipWs rest with
        | '\x7d' :: r2 => some (.jobj [], r2)
        | r1 => pMembers fuel r1 []
      else
        match pNum cs with
        | some (q, r) => some (.jnum q, r)
        | none => none

/-- Array elements after the opening bracket (at least one element). -/
def pElems : Nat → List Char → List Json → Option (Json × List Char)
  | 0, _, _ => none
  | fuel + 1, cs, acc =>
    match pJson fuel cs with
    | none => none
    | some (v, r) =>
      match skipWs r with
      | ',' :: r2 => pElems fuel r2 (v :: acc)
      | ']' :: r2 => some (.jarr (v :: acc).reverse, r2)
      | _ => none

/-- Object members after the opening brace (at least one member). -/
def pMembers : Nat → List Char → List (String × Json) →
    Option (Json × List Char)
  | 0, _, _ => none
  | fuel + 1, cs, acc =>
    match skipWs cs with
    | '"' :: rest =>
      match pStringAux rest.length.succ [] rest with
      | none => none
      | some (k, r) =>
        match skipWs r with
        | ':' :: r2 =>
          match pJson fuel r2 with
          | none => none
          | some (v, r3) =>
            match skipWs r3 with
            | ',' :: r4 => pMembers fuel r4 (jinsert acc k v)
            | '\x7d' :: r4 => some (.jobj (jinsert acc k v), r4)
            | _ => none
        | _ => none
    | _ => none

end

/-- Model of Python `json.loads`: a single JSON document, with nothing but
whitespace allowed around it (anything else raises `JSONDecodeError`,
modelled as `none`). -/
def json_loads (s : String) : Option Json :=
  match pJson (s.length + 1) s.data with
  | some (v, rest) => if skipWs rest = [] then some v else none
  | none => none

def jget (kvs : List (String × Json)) (k : String) : Option Json :=
  (kvs.find? (fun e => e.1 = k)).map (fun e => e.2)

/-- Python truthiness of a JSON-decoded value (`bool(x)`). -/
def pyBool : Json → Bool
  | .null => false
  | .jbool b => b
  | .jnum q => q ≠ 0
  | .jstr s => s ≠ ""
  | .jarr xs => !xs.isEmpty
  | .jobj kvs => !kvs.isEmpty

/-- Model of Python `str(x)` on a JSON-decoded value.  Strings and the
three keyword literals follow Python exactly; numeric and container
renderings are model-level (no claim exercises them). -/
def pyStr : Json → String
  | .jstr s => s
  | .jbool true => "True"
  | .jbool false => "False"
  | .null => "None"
  | .jnum q =>
    (if q.num < 0 then "-" else "") ++ natStr q.num.natAbs ++
      (if q.den = 1 then ".0" else "/" ++ natStr q.den)
  | .jarr _ => "[...]"
  | .jobj _ => "\x7b...\x7d"

/-- Model of Python `float(str)`: optional sign, digits with optional
point and exponent, surrounding whitespace allowed (`inf`/`nan` are
outside the rational model and map to the error case, which no pipeline
input reaches). -/
def parseFloatChars (cs0 : List Char) : Option Rat :=
  let cs := stripChars cs0
  let negp : Bool × List Char :=
    match cs with
    | c :: t =>
      if c = '-' then (true, t) else if c = '+' then (false, t)
      else (false, cs)
    | [] => (false, cs)
  let neg := negp.1
  let cs1 := negp.2
  let ds := cs1.takeWhile isDigitChar
  let rest := cs1.drop ds.length
  let fracp : Option (Nat × Nat × List Char) :=
    match rest with
    | '.' :: t =>
      let fs := t.takeWhile isDigitChar
      if ds = [] ∧ fs = [] then none
      else some (charsToNat fs, fs.length, t.drop fs.length)
    | _ => if ds = [] then none else some (0, 0, rest)
  match fracp with
  | none => none
  | some (frac, fdigits, rest2) =>
    match rest2 with
    | [] => some (decimalRat neg (charsToNat ds) frac fdigits 0)
    | e :: t =>
      if e = 'e' ∨ e = 'E' then
        let sgnt : Bool × List Char :=
          match t with
          | c :: t2 =>
            if c = '+' then (false, t2)
            else if c = '-' then (true, t2)
            else (false, t)
          | [] => (false, t)
        let es := sgnt.2.takeWhile isDigitChar
        if es = [] ∨ sgnt.2.drop es.length ≠ [] then none
        else
          let ev : Int := if sgnt.1 then -(charsToNat es : Int)
            else (charsToNat es : Int)
          some (decimalRat neg (charsToNat ds) frac fdigits ev)
      else none

/-- Result of Python `float(x)` on a JSON-decoded value: `ValueError` (a
non-numeric string) is caught by `_parse_response`'s `except` clause;
`TypeError` (None, list, dict) is not. -/
inductive PyFloatRes where
  | ok (q : Rat)
  | valErr
  | typeErr

def pyFloat : Json → PyFloatRes
  | .jnum q => .ok q
  | .jbool b => .ok (if b then 1 else 0)
  | .jstr s =>
    match parseFloatChars s.data with
    | some q => .ok q
    | none => .valErr
  | .null => .typeErr
  | .jarr _ => .typeErr
  | .jobj _ => .typeErr

/-! ## Scorer `_parse_response` (src/ai_analyzer.py lines 575-607) -/

/-- Greedy run of literal `s`/`S` characters — what the character class
`[sS]` of the (mistyped) pattern actually matches. -/
def countSS (cs : List Char) : Nat :=
  (cs.takeWhile (fun c => c = 's' ∨ c = 'S')).length

/-- Backtracking of the greedy `[sS]*`: the largest `m ≤ bound` such that
position `m` of `rest` holds the closing brace. -/
def ssClose (rest : List Char) : Nat → Option Nat
  | 0 => if rest[0]? = some '\x7d' then some 0 else none
  | m + 1 =>
    if rest[m + 1]? = some '\x7d' then some (m + 1) else ssClose rest m

/-- `re.search(r"{[sS]*}", text)`: the pattern in the source mistypes
`[\s\S]` as the literal class `[sS]`, so it matches a brace pair holding
only `s`/`S` characters, never a JSON object.  Leftmost match, greedy
star with backtracking, as in Python `re`. -/
def ssSearch : List Char → Option (List Char)
  | [] => none
  | c :: rest =>
    if c = '\x7b' then
      match ssClose rest (countSS rest) with
      | some m => some ('\x7b' :: (rest.take m ++ ['\x7d']))
      | none => ssSearch rest
    else ssSearch rest

/-- The structured verdict `_parse_response` returns on success. -/
structure Verdict where
  is_relevant : Bool
  confidence : Rat
  reasoning : String
deriving DecidableEq, Repr

/-- `_parse_response` (src/ai_analyzer.py lines 575-607): extract the
JSON island with the (mistyped) pattern, fall back to the raw reply when
it does not match, `json.loads` the result, coerce the fields; on
`JSONDecodeError`/`KeyError`/`ValueError` return the fail-closed default
verdict.  A `TypeError`/`AttributeError` would escape the handler and is
modelled as `.error`. -/
def ai_parse_response (raw : String) : Except String Verdict :=
  let content : String :=
    match ssSearch raw.data with
    | some m => String.mk m
    | none => raw
  match json_loads content with
  | none =>
    .ok { is_relevant := false, confidence := 0,
          reasoning := "Failed to parse AI response" }
  | some j =>
    match j with
    | .jobj kvs =>
      let isRel := pyBool ((jget kvs "is_relevant").getD (.jbool false))
      match pyFloat ((jget kvs "confidence").getD (.jnum 0)) with
      | .ok conf =>
        .ok { is_relevant := isRel, confidence := conf,
              reasoning := pyStr ((jget kvs "reasoning").getD
                (.jstr "No reasoning provided")) }
      | .valErr =>
        .ok { is_relevant := false, confidence := 0,
              reasoning := "Failed to parse AI response" }
      | .typeErr => .error "TypeError: float() argument"
    | _ => .error "AttributeError: .get on a non-dict"

/-- The correct island pattern `\{[\s\S]*\}` / `\{.*\}` with DOTALL, as
used by the synthesis and clarifier parsers: from the first opening brace
to the last closing brace after it. -/
def islandSearch (cs : List Char) : Option (List Char) :=
  match cs.findIdx? (fun c => c = '\x7b') with
  | none => none
  | some i =>
    let after := cs.drop (i + 1)
    match (after.reverse.findIdx? (fun c => c = '\x7d')) with
    | none => none
    | some k => some ('\x7b' :: after.take (after.length - k))

/-! ## QueryEnhancer (src/query_enhancer.py) -/

/-- `", ".join(...)`. -/
def joinCommaSep : List String → String
  | [] => ""
  | [s] => s
  | s :: t => s ++ ", " ++ joinCommaSep t

/-- `_parse_ai_response` (src/query_enhancer.py lines 173-198): extract
the JSON island with the correct `\{[\s\S]*\}` pattern (raw reply as
fallback), decode, take `parameters` with default `{}`, and reject a
list or other non-dict value; `JSONDecodeError`/`KeyError`/`ValueError`
are caught and yield `{}`.  An `AttributeError` (top-level non-dict)
escapes and is modelled as `.error`. -/
def parse_ai_response (raw : String) : Except String (List (String × Json)) :=
  let content : String :=
    match islandSearch raw.data with
    | some m => String.mk m
    | none => raw
  match json_loads content with
  | none => .ok []
  | some j =>
    match j with
    | .jobj kvs =>
      match jget kvs "parameters" with
      | some (.jobj pkvs) => .ok pkvs
      | some _ => .ok []
      | none => .ok []
    | _ => .error "AttributeError: .get on a non-dict"

/-- `clean_keyword_field` (src/query_enhancer.py lines 204-220): `None`
passes through, a list joins its truthy elements' stripped renderings
with `", "`, a string is stripped (empty becomes `None`) and
space-separated-without-commas words are rejoined with `", "`; any other
value renders with `str`. -/
def clean_keyword_field (v : Option Json) : Option String :=
  match v with
  | none => none
  | some .null => none
  | some (.jarr xs) =>
    some (joinCommaSep ((xs.filter (fun x => pyBool x)).map
      (fun x => pyStrip (pyStr x))))
  | some (.jstr s) =>
    let s2 := pyStrip s
    if s2 = "" then none
    else if s2.data.contains ' ' ∧ ¬ s2.data.contains ',' then
      some (joinCommaSep (((pySplitWs s2).map pyStrip).filter
        (fun w => w ≠ "")))
    else some s2
  | some other => some (pyStr other)

/-- The `.get` of an optional string-valued parameter: absent and JSON
`null` give `None`; a string passes through raw (a non-string value is
stored as-is by the source and rendered here, which no claim
exercises). -/
def optStrParam (v : Option Json) : Option String :=
  match v with
  | none => none
  | some .null => none
  | some (.jstr s) => some s
  | some other => some (pyStr other)

/-- `ai_params.get(k, 'all')`-style field: absent gives the default; a
JSON `null` is stored as Python `None`, which every downstream reader
(`if self.listserv and self.listserv != "all"`) treats exactly like the
default, so it is modelled as the default. -/
def strParamD (v : Option Json) (dflt : String) : String :=
  match v with
  | none => dflt
  | some .null => dflt
  | some (.jstr s) => s
  | some other => pyStr other

/-- The `date_from`/`date_to` handling of `_create_search_params`: a
truthy value is fed to `date.fromisoformat` under a bare `except: pass`,
so anything but a valid ISO date string leaves the field `None`. -/
def isoDateParam (v : Option Json) : Option PyDate :=
  match v with
  | some (.jstr s) => if s = "" then none else parse_iso_date s
  | _ => none

/-- `_create_search_params` (src/query_enhancer.py lines 200-255). -/
def create_search_params (ai_params : List (String × Json)) : SearchParams :=
  { keyword := clean_keyword_field (jget ai_params "keyword")
    keywords_all := clean_keyword_field (jget ai_params "keywords_all")
    keywords_phrase := clean_keyword_field (jget ai_params "keywords_phrase")
    keywords_any := clean_keyword_field (jget ai_params "keywords_any")
    keywords_exclude := clean_keyword_field (jget ai_params "keywords_exclude")
    author_first_name := optStrParam (jget ai_params "author_first_name")
    author_last_name := optStrParam (jget ai_params "author_last_name")
    posted_by := optStrParam (jget ai_params "posted_by")
    date_from := isoDateParam (jget ai_params "date_from")
    date_to := isoDateParam (jget ai_params "date_to")
    listserv := strParamD (jget ai_params "listserv") "all"
    search_in :=
      match jget ai_params "search_in" with
      | some (.jstr s) => if s = "subject_only" then "subject_only"
        else "subject_and_body"
      | _ => "subject_and_body"
    attachment_filter := strParamD (jget ai_params "attachment_filter") "all"
    max_pages := 10
    max_messages := 100 }

/-- `enhance_query` (src/query_enhancer.py lines 36-83): the oracle
argument stands for the LLM call (`.error` = the call raised); any
exception — including the `AttributeError` escaping
`_parse_ai_response` — is caught by the method's own handler, which
falls back to `SearchParams(keyword=user_query)`. -/
def enhance_query (reply : Except String String) (user_query : String) :
    SearchParams :=
  match reply with
  | .error _ => { keyword := some user_query }
  | .ok raw =>
    match parse_ai_response raw with
    | .error _ => { keyword := some user_query }
    | .ok params => create_search_params params

/-- An apostrophe (for the `Workers' Compensation Judge` prefix). -/
def apos : String := String.singleton (Char.ofNat 39)

/-- The judge-title prefixes stripped by `enhance_judge_query`
(src/query_enhancer.py lines 309-312), in source order. -/
def judge_prefixes : List String :=
  ["Judge", "Hon.", "Hon", "Honorable", "WCJ",
   "Workers Compensation Judge", "Workers" ++ apos ++ " Compensation Judge"]

/-- One pass of `_extract_name`'s loop body: the case-insensitive
pattern `^prefix[\s.]*` substituted by the empty string (`[\s.]*` also
matches nothing, so stripping `Hon` off `Honorable ...` leaves
`orable ...`, as the source's regex does). -/
def stripOnePrefix (name : List Char) (pre : List Char) : List Char :=
  if startsWithCI name pre then
    (name.drop pre.length).dropWhile (fun c => isPyWs c ∨ c = '.')
  else name

/-- `_extract_name` (src/query_enhancer.py lines 262-293): strip each
prefix in order (re-stripping whitespace each round), then return the
cleaned name together with its last whitespace-separated word (the whole
name when it is a single word). -/
def extract_name (raw_name : String) (pres : List String) : String × String :=
  let final := pres.foldl (fun n pre => stripChars (stripOnePrefix n pre.data))
    (stripChars raw_name.data)
  let parts := splitWsChars final
  if 2 ≤ parts.length then
    (String.mk final, String.mk (parts.getLast?.getD final))
  else (String.mk final, String.mk final)

/-- Case-insensitive order-preserving deduplication of the variation
list (src/query_enhancer.py lines 341-346). -/
def dedupCIAux : List String → List String → List String
  | [], _ => []
  | v :: t, seen =>
    let lv := String.mk (v.data.map Char.toLower)
    if seen.contains lv then dedupCIAux t seen
    else v :: dedupCIAux t (lv :: seen)

def dedupCI (l : List String) : List String := dedupCIAux l []

/-- `enhance_judge_query` (src/query_enhancer.py lines 295-364):
deterministic judge-name variations joined into `keywords_any`. -/
def enhance_judge_query (name : String) : SearchParams :=
  let fl := extract_name name judge_prefixes
  let full_name := fl.1
  let last_name := fl.2
  let variations :=
    ["Judge " ++ last_name, last_name, "Hon. " ++ last_name,
     "Hon " ++ last_name, "WCJ " ++ last_name, "Honorable " ++ last_name,
     last_name ++ " WCJ"] ++
    (if full_name ≠ last_name then
      ["Judge " ++ full_name, full_name, "Hon. " ++ full_name,
       "WCJ " ++ full_name, "Honorable " ++ full_name]
     else [])
  { keywords_any := some (joinCommaSep (dedupCI variations))
    max_pages := 10
    max_messages := 100 }

/-! ## app.py: AI search planning (`run_search_async`, lines 926-1016) -/

/-- The fixed judge context terms of the `judge_evaluation` branch
(src/app.py line 942). -/
def judge_context_terms : String :=
  "judge, WCJ, Hon, Honorable, ruling, decision, presiding, presided, tribunal, hearing, bench, courtroom"

/-- The fixed defense-attorney context terms (src/app.py line 958). -/
def defense_context_terms : String :=
  "defense, defendant, opposing, counsel, attorney, negotiate, settlement, deposition, lien"

/-- The fixed insurance context terms (src/app.py line 1006). -/
def insurance_context_terms : String :=
  "insurance, carrier, insurer, claim, adjuster, authorization, denial, coverage, settlement, premium"

/-- `re.search(r'\(also known as:\s*([^)]+)\)', s)` — the captured group
of the leftmost match, if any (src/app.py line 967). -/
def akaFind : List Char → Option (List Char)
  | [] => none
  | c :: rest =>
    if isPrefixOfB (c :: rest) "(also known as:".data then
      let after := ((c :: rest).drop 15).dropWhile isPyWs
      let grab := after.takeWhile (fun x => x ≠ ')')
      if grab ≠ [] ∧ grab.length < after.length then some grab
      else akaFind rest
    else akaFind rest

/-- `re.sub(r'\s*\(also known as:[^)]+\)', '', s)` (src/app.py line 970):
every match removed, the greedy `\s*` also consuming the whitespace run
right before the parenthesis. -/
def akaRemoveAux : Nat → List Char → List Char
  | _, [] => []
  | 0, cs => cs
  | fuel + 1, c :: rest =>
    let cs := c :: rest
    let w := (cs.takeWhile isPyWs).length
    let afterWs := cs.drop w
    if isPrefixOfB afterWs "(also known as:".data then
      let after := afterWs.drop 15
      let grab := after.takeWhile (fun x => x ≠ ')')
      if grab ≠ [] ∧ grab.length < after.length then
        akaRemoveAux fuel (after.drop (grab.length + 1))
      else c :: akaRemoveAux fuel rest
    else c :: akaRemoveAux fuel rest

def akaRemove (cs : List Char) : List Char := akaRemoveAux cs.length cs

/-- The `insurance_company_evaluation` branch's search-term selection
(src/app.py lines 960-1001): parse an optional `(also known as: …)`
abbreviation out of the raw info, ask the abbreviation oracle (the LLM
call; `.error` = it raised) with the cleaned company name and the user
abbreviation, and on failure fall back to the user abbreviation when
truthy and otherwise to the company name's first word. -/
def insuranceSearchTerm
    (abbrevOracle : String → Option String → Except String String)
    (raw_company_info : String) : String :=
  let akaM := akaFind raw_company_info.data
  let user_abbreviation : Option String :=
    akaM.map (fun g => pyStrip (String.mk g))
  let insurance_company_name : String :=
    match akaM with
    | some _ => pyStrip (String.mk (akaRemove raw_company_info.data))
    | none => raw_company_info
  match abbrevOracle insurance_company_name user_abbreviation with
  | .ok reply => pyStrip reply
  | .error _ =>
    match user_abbreviation with
    | some a =>
      if a ≠ "" then a
      else (pySplitWs insurance_company_name).headD insurance_company_name
    | none => (pySplitWs insurance_company_name).headD insurance_company_name

/-- The `use_ai` planning dispatch of `run_search_async` (src/app.py
lines 926-1016), including the final `max_messages`/`max_pages`
assignment.  `enhOracle` stands for the QueryEnhancer LLM call and
`abbrevOracle` for the insurance-abbreviation LLM call; both are
irrelevant to the deterministic judge/defense branches. -/
def planSearchAI
    (enhOracle : String → Except String String)
    (abbrevOracle : String → Option String → Except String String)
    (query_type ai_intent : String) (max_messages max_pages : Nat) :
    SearchParams :=
  let base : SearchParams :=
    if query_type = "doctor_evaluation" then
      let doctor_name := pyStrip (pyReplace ai_intent "Evaluate doctor:" "")
      let q := "Find all messages mentioning doctor " ++ doctor_name
      enhance_query (enhOracle q) q
    else if query_type = "judge_evaluation" then
      let judge_name := pyStrip (pyReplace ai_intent "Evaluate judge:" "")
      let clean_name := pyStrip (pyReplace (pyReplace (pyReplace (pyReplace
        (pyReplace judge_name "Judge " "") "Hon. " "") "Hon " "")
        "WCJ " "") "Honorable " "")
      { keywords_all := some clean_name
        keywords_any := some judge_context_terms }
    else if query_type = "adjuster_evaluation" then
      let adjuster_name :=
        pyStrip (pyReplace ai_intent "Evaluate adjuster:" "")
      let q := "Find all messages mentioning adjuster " ++ adjuster_name
      enhance_query (enhOracle q) q
    else if query_type = "defense_attorney_evaluation" then
      let nm := pyStrip (pyReplace ai_intent "Evaluate defense attorney:" "")
      let parts := pySplitWs nm
      let clean_name := parts.getLast?.getD nm
      { keywords_all := some clean_name
        keywords_any := some defense_context_terms }
    else if query_type = "insurance_company_evaluation" then
      let raw := pyStrip (pyReplace ai_intent "Evaluate insurance company:" "")
      { keywords_all := some (insuranceSearchTerm abbrevOracle raw)
        keywords_any := some insurance_context_terms }
    else enhance_query (enhOracle ai_intent) ai_intent
  { base with max_messages := max_messages, max_pages := max_pages }

/-! ## app.py: the Clarifier endpoint `ai_analyze` (lines 448-584) -/

/-- The exceptions that can cross `ai_analyze`'s `try` body. -/
inductive PyExc where
  | httpExc (code : Nat) (detail : String)
  | exc (msg : String)

/-- Python `str(e)`; Starlette renders an `HTTPException` as
`"{code}: {detail}"`. -/
def excStr : PyExc → String
  | .httpExc c d => natStr c ++ ": " ++ d
  | .exc m => m

/-- What the endpoint hands back to the caller. -/
inductive ClarifyOutcome where
  | followUp (q : Option String)
  | suggestions (p : SearchParams)
  | httpError (code : Nat) (detail : String)
deriving DecidableEq, Repr

/-- The `try` body of `ai_analyze` (src/app.py lines 452-581):
`clientConfigured` is `orchestrator.client`; `vaguenessReply` stands for
the vagueness LLM call (`.error` = it raised); `enhReply` is passed on
to `enhance_query` for the specific branch.  The body itself *raises*
`HTTPException(503)` when the client is missing. -/
def ai_analyze_body (clientConfigured : Bool)
    (vaguenessReply : Except String String)
    (enhReply : Except String String) (intent : String) :
    Except PyExc ClarifyOutcome :=
  if ¬ clientConfigured then
    .error (.httpExc 503 "AI service not available")
  else
    match vaguenessReply with
    | .error e => .error (.exc e)
    | .ok raw =>
      let content : String :=
        match islandSearch raw.data with
        | some m => String.mk m
        | none => raw
      match json_loads content with
      | none => .error (.exc "JSONDecodeError")
      | some j =>
        match j with
        | .jobj kvs =>
          if pyBool ((jget kvs "is_vague").getD (.jbool false)) then
            .ok (.followUp (match jget kvs "follow_up_question" with
              | some (.jstr s) => some s
              | _ => none))
          else .ok (.suggestions (enhance_query enhReply intent))
        | _ => .error (.exc "AttributeError: .get on a non-dict")

/-- `ai_analyze` as the caller sees it: the catch-all
`except Exception as e: raise HTTPException(500, str(e))` also swallows
the endpoint's own `HTTPException(503)` and re-raises it as a 500 whose
detail is the rendered 503. -/
def ai_analyze (clientConfigured : Bool)
    (vaguenessReply enhReply : Except String String) (intent : String) :
    ClarifyOutcome :=
  match ai_analyze_body clientConfigured vaguenessReply enhReply intent with
  | .ok out => out
  | .error e => .httpError 500 (excStr e)

/-!
# Theorems

Every definition of the development is above; the claims settled against
them, with their supporting lemmas, follow.
-/

theorem dget_dinsert (d : PyDict) (k k' : String) (v : FormVal) :
    dget (dinsert d k v) k' = if k = k' then some v else dget d k' := by
  induction d with
  | nil => simp [dinsert, dget]
  | cons hd t ih =>
    obtain ⟨hk, hv⟩ := hd
    simp only [dinsert]
    by_cases h1 : hk = k
    · subst h1
      simp only [if_pos rfl, dget]
      by_cases h2 : hk = k' <;> simp [h2]
    · simp only [if_neg h1, dget]
      by_cases h2 : hk = k'
      · subst h2
        simp [Ne.symm h1]
      · simp [h2, ih]

theorem dget_dins (c : Bool) (d : PyDict) (k k' : String) (v : FormVal) :
    dget (dins c k v d) k' =
      if k = k' then (if c then some v else dget d k') else dget d k' := by
  cases c
  · simp [dins]
  · simp [dins, dget_dinsert]

/-! ## Digit and split lemmas -/

theorem natCharsAux_irrel (f1 : Nat) :
    ∀ (f2 n : Nat), n < f1 → n < f2 → natCharsAux f1 n = natCharsAux f2 n := by
  induction f1 with
  | zero => intro f2 n h1 _; omega
  | succ f1 ih =>
    intro f2 n h1 h2
    cases f2 with
    | zero => omega
    | succ f2 =>
      simp only [natCharsAux]
      by_cases h : n < 10
      · simp [h]
      · rw [if_neg h, if_neg h]
        have hd : n / 10 < n := Nat.div_lt_self (by omega) (by omega)
        rw [ih f2 (n / 10) (by omega) (by omega)]

theorem natChars_eq (n : Nat) :
    natChars n = if n < 10 then [digitChar10 n]
      else natChars (n / 10) ++ [digitChar10 (n % 10)] := by
  show natCharsAux (n + 1) n = _
  by_cases h : n < 10
  · simp [natCharsAux, h]
  · simp only [natCharsAux, if_neg h]
    rw [natCharsAux_irrel n (n / 10 + 1) (n / 10)
      (Nat.div_lt_self (by omega) (by omega)) (by omega)]
    rfl

theorem isDigitChar_digitChar10 (n : Nat) : isDigitChar (digitChar10 n) = true :=
  match n with
  | 0 => rfl | 1 => rfl | 2 => rfl | 3 => rfl | 4 => rfl
  | 5 => rfl | 6 => rfl | 7 => rfl | 8 => rfl | _ + 9 => rfl

theorem toNat_digitChar10 (n : Nat) (h : n < 10) :
    (digitChar10 n).toNat - 48 = n := by
  interval_cases n <;> rfl

theorem natChars_ne_nil (n : Nat) : natChars n ≠ [] := by
  rw [natChars_eq]
  split
  · simp
  · simp

theorem natChars_all_digits (n : Nat) :
    ∀ c ∈ natChars n, isDigitChar c = true := by
  induction n using Nat.strong_induction_on with
  | _ n ih =>
    rw [natChars_eq]
    split
    · intro c hc
      simp at hc
      subst hc
      exact isDigitChar_digitChar10 n
    · intro c hc
      rcases List.mem_append.mp hc with h1 | h2
      · exact ih (n / 10) (Nat.div_lt_self (by omega) (by omega)) c h1
      · simp at h2
        subst h2
        exact isDigitChar_digitChar10 (n % 10)

theorem charsToNat_append_digit (xs : List Char) (c : Char) :
    charsToNat (xs ++ [c]) = charsToNat xs * 10 + (c.toNat - 48) := by
  simp [charsToNat, List.foldl_append]

theorem charsToNat_natChars (n : Nat) : charsToNat (natChars n) = n := by
  induction n using Nat.strong_induction_on with
  | _ n ih =>
    rw [natChars_eq]
    split
    · rename_i h
      simp [charsToNat, toNat_digitChar10 n h]
    · rename_i h
      rw [charsToNat_append_digit,
        ih (n / 10) (Nat.div_lt_self (by omega) (by omega)),
        toNat_digitChar10 (n % 10) (Nat.mod_lt _ (by omega))]
      omega

theorem natChars_length_le (k : Nat) :
    ∀ n, 0 < k → n < 10 ^ k → (natChars n).length ≤ k := by
  induction k with
  | zero => intro n h; omega
  | succ k ih =>
    intro n _ hn
    rw [natChars_eq]
    split
    · simp
    · rename_i h10
      have hk : 0 < k := by
        by_contra hk0
        have : k = 0 := by omega
        subst this
        simp at hn
        omega
      have hdiv : n / 10 < 10 ^ k := by
        rw [Nat.div_lt_iff_lt_mul (by omega)]
        calc n < 10 ^ (k + 1) := hn
        _ = 10 ^ k * 10 := by ring
      simp only [List.length_append, List.length_cons, List.length_nil]
      have := ih (n / 10) hk hdiv
      omega

theorem parseNatChars_natChars (n : Nat) :
    parseNatChars (natChars n) = some n := by
  have h1 := natChars_ne_nil n
  have h2 := natChars_all_digits n
  simp only [parseNatChars, List.all_eq_true, charsToNat_natChars]
  rw [if_pos ⟨h1, h2⟩]

theorem charsToNat_replicate_zero (k : Nat) (cs : List Char) :
    charsToNat (List.replicate k '0' ++ cs) = charsToNat cs := by
  induction k with
  | zero => simp
  | succ k ih =>
    have : List.replicate (k + 1) '0' ++ cs = '0' :: (List.replicate k '0' ++ cs) := by
      simp [List.replicate_succ]
    rw [this]
    simpa [charsToNat] using ih

theorem isDigitChar_not_sign (c : Char) (h : isDigitChar c = true) :
    ¬ (c = '+' ∨ c = '-') := by
  rintro (rfl | rfl) <;> simp [isDigitChar] at h

theorem zfillChars_length (w : Nat) (cs : List Char) :
    (zfillChars w cs).length = max w cs.length := by
  cases cs with
  | nil => simp [zfillChars]
  | cons c t =>
    simp only [zfillChars]
    by_cases hw : w ≤ (c :: t).length
    · rw [if_pos hw]
      simp only [List.length_cons] at hw ⊢
      omega
    · rw [if_neg hw]
      simp only [List.length_cons] at hw
      by_cases hs : c = '+' ∨ c = '-'
      · rw [if_pos hs]
        simp only [List.length_cons, List.length_append, List.length_replicate]
        omega
      · rw [if_neg hs]
        simp only [List.length_cons, List.length_append, List.length_replicate]
        omega

theorem parseNatChars_zfill_natChars (w n : Nat) :
    parseNatChars (zfillChars w (natChars n)) = some n := by
  rcases hcs : natChars n with _ | ⟨c, t⟩
  · exact absurd hcs (natChars_ne_nil n)
  · have hdig : isDigitChar c = true := by
      have := natChars_all_digits n
      rw [hcs] at this
      exact this c (by simp)
    simp only [zfillChars]
    rw [if_neg (isDigitChar_not_sign c hdig)]
    split_ifs with h1
    · rw [← hcs]
      exact parseNatChars_natChars n
    · have hall : ∀ x ∈ List.replicate (w - (c :: t).length) '0' ++ c :: t,
          isDigitChar x = true := by
        intro x hx
        rcases List.mem_append.mp hx with ha | hb
        · have := List.eq_of_mem_replicate ha
          subst this
          rfl
        · have := natChars_all_digits n
          rw [hcs] at this
          exact this x hb
      simp only [parseNatChars, List.all_eq_true]
      rw [if_pos ⟨by simp, hall⟩, charsToNat_replicate_zero]
      have := charsToNat_natChars n
      rw [hcs] at this
      rw [this]

theorem splitChar_no_sep (sep : Char) (xs : List Char)
    (h : ∀ c ∈ xs, c ≠ sep) : splitChar sep xs = [xs] := by
  induction xs with
  | nil => rfl
  | cons c t ih =>
    have hc : c ≠ sep := h c (by simp)
    have ht := ih (fun x hx => h x (by simp [hx]))
    simp [splitChar, hc, ht]

theorem splitChar_append_sep (sep : Char) (xs ys : List Char)
    (h : ∀ c ∈ xs, c ≠ sep) :
    splitChar sep (xs ++ sep :: ys) = xs :: splitChar sep ys := by
  induction xs with
  | nil => simp [splitChar]
  | cons c t ih =>
    have hc : c ≠ sep := h c (by simp)
    have ht := ih (fun x hx => h x (by simp [hx]))
    simp only [List.cons_append, splitChar, if_neg hc]
    rw [show t.append (sep :: ys) = t ++ sep :: ys from rfl, ht]

theorem mem_zfillChars (w : Nat) (cs : List Char) (c : Char)
    (h : c ∈ zfillChars w cs) : c ∈ cs ∨ c = '0' := by
  cases cs with
  | nil =>
    simp only [zfillChars] at h
    exact Or.inr (List.eq_of_mem_replicate h)
  | cons c' t =>
    by_cases hw : w ≤ (c' :: t).length
    · simp only [zfillChars, if_pos hw] at h
      exact Or.inl h
    · by_cases hs : c' = '+' ∨ c' = '-'
      · simp only [zfillChars, if_neg hw, if_pos hs] at h
        rcases List.mem_cons.mp h with h | h
        · exact Or.inl (by simp [h])
        · rcases List.mem_append.mp h with h1 | h2
          · exact Or.inr (List.eq_of_mem_replicate h1)
          · exact Or.inl (by simp [h2])
      · simp only [zfillChars, if_neg hw, if_neg hs] at h
        rcases List.mem_append.mp h with h1 | h2
        · exact Or.inr (List.eq_of_mem_replicate h1)
        · exact Or.inl h2

theorem digits_no_slash (n : Nat) : ∀ c ∈ natChars n, c ≠ '/' := by
  intro c hc
  have := natChars_all_digits n c hc
  rintro rfl
  simp [isDigitChar] at this

theorem zfill_digits_no_slash (w n : Nat) :
    ∀ c ∈ zfillChars w (natChars n), c ≠ '/' := by
  intro c hc
  rcases mem_zfillChars w (natChars n) c hc with h | h
  · exact digits_no_slash n c h
  · subst h
    decide

/-! ## Date round trip -/

theorem strptime_strftime (d : PyDate) (h : validDate d = true) :
    strptime_mdY (strftime_mdY d) = some d := by
  obtain ⟨y, m, dd⟩ := d
  simp only [validDate, Bool.and_eq_true, decide_eq_true_eq] at h
  obtain ⟨⟨⟨⟨⟨h1, h2⟩, h3⟩, h4⟩, h5⟩, h6⟩ := h
  have hsplit : splitChar '/' (zfillChars 2 (natChars m) ++ '/' ::
      (zfillChars 2 (natChars dd) ++ '/' :: natChars y)) =
      [zfillChars 2 (natChars m), zfillChars 2 (natChars dd), natChars y] := by
    rw [splitChar_append_sep '/' _ _ (zfill_digits_no_slash 2 m),
      splitChar_append_sep '/' _ _ (zfill_digits_no_slash 2 dd),
      splitChar_no_sep '/' _ (digits_no_slash y)]
  simp only [strptime_mdY, strftime_mdY]
  rw [hsplit]
  simp only [parseNatChars_zfill_natChars, parseNatChars_natChars]
  have hlm : (zfillChars 2 (natChars m)).length ≤ 2 := by
    rw [zfillChars_length]
    have := natChars_length_le 2 m (by omega) (by omega)
    omega
  have hld : (zfillChars 2 (natChars dd)).length ≤ 2 := by
    rw [zfillChars_length]
    have hdm : dd < 100 := by
      have : daysInMonth y m ≤ 31 := by
        unfold daysInMonth
        split
        · split <;> omega
        · split <;> omega
      omega
    have := natChars_length_le 2 dd (by omega) (by omega)
    omega
  have hly : (natChars y).length ≤ 4 :=
    natChars_length_le 4 y (by omega) (by omega)
  rw [if_pos ⟨hlm, hld, hly, h3, h4, by omega, h2, h5, h6⟩]

/-! ## Lookup characterization of the emitted form map -/

@[simp] theorem dget_nil (k : String) : dget [] k = none := rfl

theorem form_s_fname (p : SearchParams) :
    dget (to_form_data p) "s_fname" =
      if truthy p.author_first_name then
        some (.s (p.author_first_name.getD ""))
      else formStr p.keyword := by
  simp [to_form_data, dget_dins, dget_dinsert, formStr]

theorem form_s_lname (p : SearchParams) :
    dget (to_form_data p) "s_lname" = formStr p.author_last_name := by
  simp [to_form_data, dget_dins, dget_dinsert, formStr]

theorem form_s_postedby (p : SearchParams) :
    dget (to_form_data p) "s_postedby" = formStr p.posted_by := by
  simp [to_form_data, dget_dins, dget_dinsert, formStr]

theorem form_s_postdatefrom (p : SearchParams) :
    dget (to_form_data p) "s_postdatefrom" =
      Option.map (fun dd => FormVal.s (strftime_mdY dd)) p.date_from := by
  simp [to_form_data, dget_dins, dget_dinsert]
  cases p.date_from <;> simp

theorem form_s_postdateto (p : SearchParams) :
    dget (to_form_data p) "s_postdateto" =
      Option.map (fun dd => FormVal.s (strftime_mdY dd)) p.date_to := by
  simp [to_form_data, dget_dins, dget_dinsert]
  cases p.date_to <;> simp

theorem form_s_key_all (p : SearchParams) :
    dget (to_form_data p) "s_key_all" = formStr p.keywords_all := by
  simp [to_form_data, dget_dins, dget_dinsert, formStr]

theorem form_s_key_phrase (p : SearchParams) :
    dget (to_form_data p) "s_key_phrase" = formStr p.keywords_phrase := by
  simp [to_form_data, dget_dins, dget_dinsert, formStr]

theorem form_s_key_one (p : SearchParams) :
    dget (to_form_data p) "s_key_one" = formStr p.keywords_any := by
  simp [to_form_data, dget_dins, dget_dinsert, formStr]

theorem form_s_key_x (p : SearchParams) :
    dget (to_form_data p) "s_key_x" = formStr p.keywords_exclude := by
  simp [to_form_data, dget_dins, dget_dinsert, formStr]

theorem form_s_list (p : SearchParams) :
    dget (to_form_data p) "s_list" =
      if p.listserv = "all" then none else some (.s p.listserv) := by
  simp only [to_form_data, dget_dins, dget_dinsert]
  by_cases h : p.listserv = "all" <;> simp [h]

theorem form_s_cat (p : SearchParams) :
    dget (to_form_data p) "s_cat" =
      if p.search_in = "subject_only" then some (.s "1") else none := by
  simp only [to_form_data, dget_dins, dget_dinsert]
  by_cases h : p.search_in = "subject_only" <;> simp [h]

theorem form_s_attachment (p : SearchParams) :
    dget (to_form_data p) "s_attachment" =
      if p.attachment_filter = "with_attachments" then some (.s "1")
      else if p.attachment_filter = "without_attachments" then some (.s "0")
      else none := by
  simp only [to_form_data, dget_dins, dget_dinsert]
  by_cases h1 : p.attachment_filter = "with_attachments"
  · have h2 : p.attachment_filter ≠ "without_attachments" := by
      rw [h1]
      decide
    simp [h1, h2]
  · by_cases h2 : p.attachment_filter = "without_attachments" <;> simp [h1, h2]

theorem form_max_messages (p : SearchParams) :
    dget (to_form_data p) "max_messages" = some (.n p.max_messages) := by
  simp [to_form_data, dget_dins, dget_dinsert]

theorem form_max_pages (p : SearchParams) :
    dget (to_form_data p) "max_pages" = some (.n p.max_pages) := by
  simp [to_form_data, dget_dins, dget_dinsert]

/-! ## Round trip of the form map (claims C4, C7) -/

theorem dgetStr_eq (d : PyDict) (k : String) :
    dgetStr d k = strOfVal (dget d k) := rfl

theorem strOfVal_formStr (o : Option String) (h : okStr o = true) :
    strOfVal (formStr o) = o := by
  cases o with
  | none => rfl
  | some s =>
    simp only [okStr, decide_eq_true_eq] at h
    simp [formStr, truthy, h, strOfVal]

theorem strftime_ne_empty (d : PyDate) : strftime_mdY d ≠ "" := by
  intro h
  have h2 := congrArg String.data h
  simp only [strftime_mdY] at h2
  exact absurd h2 (by simp)

theorem reparse_keyword (d : PyDict) : (reparse_params d).keyword =
    (if truthy (dgetStr d "s_fname") then
      (if truthy (dgetStr d "s_lname") then none else dgetStr d "s_fname")
    else none) := rfl

theorem reparse_afn (d : PyDict) : (reparse_params d).author_first_name =
    (if truthy (dgetStr d "s_fname") then
      (if truthy (dgetStr d "s_lname") then dgetStr d "s_fname" else none)
    else none) := rfl

theorem reparse_aln (d : PyDict) :
    (reparse_params d).author_last_name = dgetStr d "s_lname" := rfl

theorem reparse_keywords_all (d : PyDict) :
    (reparse_params d).keywords_all = dgetStr d "s_key_all" := rfl

theorem reparse_keywords_phrase (d : PyDict) :
    (reparse_params d).keywords_phrase = dgetStr d "s_key_phrase" := rfl

theorem reparse_keywords_any (d : PyDict) :
    (reparse_params d).keywords_any = dgetStr d "s_key_one" := rfl

theorem reparse_keywords_exclude (d : PyDict) :
    (reparse_params d).keywords_exclude = dgetStr d "s_key_x" := rfl

theorem reparse_posted_by (d : PyDict) :
    (reparse_params d).posted_by = dgetStr d "s_postedby" := rfl

theorem reparse_listserv (d : PyDict) :
    (reparse_params d).listserv = (dgetStr d "s_list").getD "all" := rfl

theorem reparse_date_from (d : PyDict) :
    (reparse_params d).date_from =
      reparse_date (dgetStr d "s_postdatefrom") := rfl

theorem reparse_date_to (d : PyDict) :
    (reparse_params d).date_to = reparse_date (dgetStr d "s_postdateto") := rfl

theorem reparse_search_in (d : PyDict) : (reparse_params d).search_in =
    (if dgetStr d "s_cat" = some "1" then "subject_only"
     else "subject_and_body") := rfl

theorem reparse_attachment (d : PyDict) :
    (reparse_params d).attachment_filter =
      (if dgetStr d "s_attachment" = some "1" then "with_attachments"
       else if dgetStr d "s_attachment" = some "0" then "without_attachments"
       else "all") := rfl

theorem reparse_max_messages (d : PyDict) :
    (reparse_params d).max_messages =
      (match dget d "max_messages" with
       | some (.n v) => v
       | _ => 100) := rfl

theorem reparse_max_pages (d : PyDict) :
    (reparse_params d).max_pages =
      (match dget d "max_pages" with
       | some (.n v) => v
       | _ => 10) := rfl

theorem SearchParams_ext (a b : SearchParams)
    (h1 : a.keyword = b.keyword)
    (h2 : a.keywords_all = b.keywords_all)
    (h3 : a.keywords_phrase = b.keywords_phrase)
    (h4 : a.keywords_any = b.keywords_any)
    (h5 : a.keywords_exclude = b.keywords_exclude)
    (h6 : a.author_first_name = b.author_first_name)
    (h7 : a.author_last_name = b.author_last_name)
    (h8 : a.posted_by = b.posted_by)
    (h9 : a.date_from = b.date_from)
    (h10 : a.date_to = b.date_to)
    (h11 : a.listserv = b.listserv)
    (h12 : a.search_in = b.search_in)
    (h13 : a.attachment_filter = b.attachment_filter)
    (h14 : a.max_pages = b.max_pages)
    (h15 : a.max_messages = b.max_messages) : a = b := by
  cases a
  cases b
  simp only [SearchParams.mk.injEq]
  exact ⟨h1, h2, h3, h4, h5, h6, h7, h8, h9, h10, h11, h12, h13, h14, h15⟩

theorem strOfVal_formStr_if (o : Option String) (h : okStr o = true) :
    strOfVal (formStr o) = (if truthy o then o else none) := by
  cases o with
  | none => rfl
  | some s =>
    simp only [okStr, decide_eq_true_eq] at h
    simp [formStr, truthy, h, strOfVal]

theorem eq_none_of_not_truthy (o : Option String) (h1 : okStr o = true)
    (h2 : truthy o = false) : o = none := by
  cases o with
  | none => rfl
  | some s =>
    simp only [okStr, decide_eq_true_eq] at h1
    simp [truthy, h1] at h2

theorem dgetStr_form_date_from (p : SearchParams)
    (h : okDate p.date_from = true) :
    reparse_date (dgetStr (to_form_data p) "s_postdatefrom") = p.date_from := by
  rw [dgetStr_eq, form_s_postdatefrom]
  cases hdf : p.date_from with
  | none => rfl
  | some d0 =>
    rw [hdf] at h
    simp only [okDate] at h
    show (if strftime_mdY d0 = "" then none
      else strptime_mdY (strftime_mdY d0)) = some d0
    rw [if_neg (strftime_ne_empty d0)]
    exact strptime_strftime d0 h

theorem dgetStr_form_date_to (p : SearchParams)
    (h : okDate p.date_to = true) :
    reparse_date (dgetStr (to_form_data p) "s_postdateto") = p.date_to := by
  rw [dgetStr_eq, form_s_postdateto]
  cases hdf : p.date_to with
  | none => rfl
  | some d0 =>
    rw [hdf] at h
    simp only [okDate] at h
    show (if strftime_mdY d0 = "" then none
      else strptime_mdY (strftime_mdY d0)) = some d0
    rw [if_neg (strftime_ne_empty d0)]
    exact strptime_strftime d0 h

/-- Claim C4 falls on the shared `s_fname` slot: `to_form_data` writes the
simple `keyword` into `s_fname`, and the worker's reload reads `s_fname`
back as `author_first_name` whenever `s_lname` is also present
(src/run_search_worker.py lines 75-89), so a spec with both a keyword and
an author last name does not survive the round trip. -/
theorem C4_roundtrip_counterexample :
    reparse_params (to_form_data
        ({ keyword := some "cat", author_last_name := some "Smith" } :
          SearchParams)) ≠
      ({ keyword := some "cat", author_last_name := some "Smith" } :
        SearchParams) ∧
    reparse_params (to_form_data
        ({ keyword := some "cat", author_last_name := some "Smith" } :
          SearchParams)) =
      ({ author_first_name := some "cat", author_last_name := some "Smith" } :
        SearchParams) := by
  decide

/-- Claim C4 (amended): the round trip
`SearchSpec → to_upstream_form() → reparsed SearchSpec` is the identity for
every spec in which set fields are non-empty, dates are valid
four-digit-year dates, the enum fields hold their declared values, and the
spec does not collide on the shared `s_fname` form slot: a set `keyword`
excludes both author-name fields, and a set `author_first_name` requires a
set `author_last_name` (these exclusions are what the counterexample
forces). -/
theorem C4_roundtrip_amended (p : SearchParams)
    (hk : okStr p.keyword = true)
    (ha : okStr p.keywords_all = true)
    (hph : okStr p.keywords_phrase = true)
    (hn : okStr p.keywords_any = true)
    (he : okStr p.keywords_exclude = true)
    (hafn : okStr p.author_first_name = true)
    (haln : okStr p.author_last_name = true)
    (hpb : okStr p.posted_by = true)
    (hdf : okDate p.date_from = true)
    (hdt : okDate p.date_to = true)
    (hsi : p.search_in = "subject_and_body" ∨ p.search_in = "subject_only")
    (hatt : p.attachment_filter = "all" ∨
      p.attachment_filter = "with_attachments" ∨
      p.attachment_filter = "without_attachments")
    (hkw : truthy p.keyword = true →
      p.author_first_name = none ∧ p.author_last_name = none)
    (hfl : truthy p.author_first_name = true →
      truthy p.author_last_name = true) :
    reparse_params (to_form_data p) = p := by
  have eln : dgetStr (to_form_data p) "s_lname" = p.author_last_name := by
    rw [dgetStr_eq, form_s_lname]
    exact strOfVal_formStr _ haln
  have efn : dgetStr (to_form_data p) "s_fname" =
      (if truthy p.author_first_name then p.author_first_name
       else if truthy p.keyword then p.keyword else none) := by
    rw [dgetStr_eq, form_s_fname]
    by_cases hcase : truthy p.author_first_name = true
    · rw [if_pos hcase, if_pos hcase]
      cases hv : p.author_first_name with
      | none => rw [hv] at hcase; exact absurd hcase (by simp [truthy])
      | some a => simp [strOfVal]
    · rw [if_neg hcase, if_neg hcase]
      rw [strOfVal_formStr_if _ hk]
  have hKfalse_of_A : truthy p.author_first_name = true →
      truthy p.keyword = false := by
    intro hA
    cases hb : truthy p.keyword
    · rfl
    · have := (hkw hb).1
      rw [this] at hA
      simp [truthy] at hA
  apply SearchParams_ext
  · -- keyword survives
    rw [reparse_keyword, efn, eln]
    by_cases hA : truthy p.author_first_name = true
    · rw [if_pos hA, hA]
      simp only [if_true]
      rw [hfl hA]
      simp only [if_true]
      exact (eq_none_of_not_truthy _ hk (hKfalse_of_A hA)).symm
    · have hA' : truthy p.author_first_name = false := by
        cases hb : truthy p.author_first_name
        · rfl
        · exact absurd hb hA
      rw [if_neg hA]
      by_cases hK : truthy p.keyword = true
      · rw [if_pos hK, hK]
        simp only [if_true]
        rw [(hkw hK).2]
        simp [truthy]
      · have hK' : truthy p.keyword = false := by
          cases hb : truthy p.keyword
          · rfl
          · exact absurd hb hK
        rw [if_neg hK]
        simp only [truthy, Bool.false_eq_true, if_false]
        exact (eq_none_of_not_truthy _ hk hK').symm
  · rw [reparse_keywords_all, dgetStr_eq, form_s_key_all]
    exact strOfVal_formStr _ ha
  · rw [reparse_keywords_phrase, dgetStr_eq, form_s_key_phrase]
    exact strOfVal_formStr _ hph
  · rw [reparse_keywords_any, dgetStr_eq, form_s_key_one]
    exact strOfVal_formStr _ hn
  · rw [reparse_keywords_exclude, dgetStr_eq, form_s_key_x]
    exact strOfVal_formStr _ he
  · -- author_first_name survives
    rw [reparse_afn, efn, eln]
    by_cases hA : truthy p.author_first_name = true
    · rw [if_pos hA, hA]
      simp only [if_true]
      rw [hfl hA]
      simp only [if_true]
    · have hA' : truthy p.author_first_name = false := by
        cases hb : truthy p.author_first_name
        · rfl
        · exact absurd hb hA
      rw [if_neg hA]
      by_cases hK : truthy p.keyword = true
      · rw [if_pos hK, hK]
        simp only [if_true]
        rw [(hkw hK).2]
        simp only [truthy, Bool.false_eq_true, if_false]
        exact (eq_none_of_not_truthy _ hafn hA').symm
      · have hK' : truthy p.keyword = false := by
          cases hb : truthy p.keyword
          · rfl
          · exact absurd hb hK
        rw [if_neg hK]
        simp only [truthy, Bool.false_eq_true, if_false]
        exact (eq_none_of_not_truthy _ hafn hA').symm
  · rw [reparse_aln, eln]
  · rw [reparse_posted_by, dgetStr_eq, form_s_postedby]
    exact strOfVal_formStr _ hpb
  · rw [reparse_date_from]
    exact dgetStr_form_date_from p hdf
  · rw [reparse_date_to]
    exact dgetStr_form_date_to p hdt
  · rw [reparse_listserv, dgetStr_eq, form_s_list]
    by_cases h : p.listserv = "all"
    · simp [h, strOfVal]
    · simp [h, strOfVal]
  · rw [reparse_search_in, dgetStr_eq, form_s_cat]
    rcases hsi with h | h <;> simp [h, strOfVal]
  · rw [reparse_attachment, dgetStr_eq, form_s_attachment]
    rcases hatt with h | h | h <;> simp [h, strOfVal]
  · rw [reparse_max_pages, form_max_pages]
  · rw [reparse_max_messages, form_max_messages]

theorem C4_roundtrip_witness :
    reparse_params (to_form_data
      ({ keywords_all := some "a, b", keywords_any := some "q",
         author_first_name := some "John", author_last_name := some "Smith",
         posted_by := some "Jane Roe", date_from := some ⟨2025, 1, 2⟩,
         listserv := "lawnet", search_in := "subject_only",
         attachment_filter := "with_attachments", max_pages := 5,
         max_messages := 42 } : SearchParams)) =
      ({ keywords_all := some "a, b", keywords_any := some "q",
         author_first_name := some "John", author_last_name := some "Smith",
         posted_by := some "Jane Roe", date_from := some ⟨2025, 1, 2⟩,
         listserv := "lawnet", search_in := "subject_only",
         attachment_filter := "with_attachments", max_pages := 5,
         max_messages := 42 } : SearchParams) :=
  C4_roundtrip_amended _ (by decide) (by decide) (by decide) (by decide)
    (by decide) (by decide) (by decide) (by decide) (by decide) (by decide)
    (by decide) (by decide) (by decide) (by decide)

/-- Claim C7 falls on the two scraper caps: `to_form_data` writes
`max_messages` and `max_pages` into the form map unconditionally
(src/search_params.py lines 142-144), so the default spec still carries
both entries. -/
theorem C7_form_emission_counterexample :
    dget (to_form_data ({} : SearchParams)) "max_messages" =
      some (.n 100) ∧
    ({} : SearchParams).max_messages = 100 ∧
    dget (to_form_data ({} : SearchParams)) "max_pages" = some (.n 10) ∧
    ({} : SearchParams).max_pages = 10 := by
  decide

/-- Claim C7 (amended): every upstream field of the form map is emitted
exactly when it differs from its default (optional fields when set and
non-empty, `listserv`/`search_in`/`attachment_filter` when not the
default), and dates are serialized in MM/DD/YYYY — but the two scraper
caps `max_messages` and `max_pages` are always present, defaults
included. -/
theorem C7_form_emission_amended (p : SearchParams) :
    ((dget (to_form_data p) "s_fname").isSome ↔
      (truthy p.keyword = true ∨ truthy p.author_first_name = true)) ∧
    ((dget (to_form_data p) "s_lname").isSome ↔
      truthy p.author_last_name = true) ∧
    ((dget (to_form_data p) "s_postedby").isSome ↔
      truthy p.posted_by = true) ∧
    ((dget (to_form_data p) "s_key_all").isSome ↔
      truthy p.keywords_all = true) ∧
    ((dget (to_form_data p) "s_key_phrase").isSome ↔
      truthy p.keywords_phrase = true) ∧
    ((dget (to_form_data p) "s_key_one").isSome ↔
      truthy p.keywords_any = true) ∧
    ((dget (to_form_data p) "s_key_x").isSome ↔
      truthy p.keywords_exclude = true) ∧
    ((dget (to_form_data p) "s_list").isSome ↔ p.listserv ≠ "all") ∧
    ((dget (to_form_data p) "s_cat").isSome ↔
      p.search_in = "subject_only") ∧
    ((dget (to_form_data p) "s_attachment").isSome ↔
      (p.attachment_filter = "with_attachments" ∨
        p.attachment_filter = "without_attachments")) ∧
    (dget (to_form_data p) "s_postdatefrom" =
      Option.map (fun dd => FormVal.s (strftime_mdY dd)) p.date_from) ∧
    (dget (to_form_data p) "s_postdateto" =
      Option.map (fun dd => FormVal.s (strftime_mdY dd)) p.date_to) ∧
    (dget (to_form_data p) "max_messages" = some (.n p.max_messages)) ∧
    (dget (to_form_data p) "max_pages" = some (.n p.max_pages)) := by
  refine ⟨?_, ?_, ?_, ?_, ?_, ?_, ?_, ?_, ?_, ?_,
    form_s_postdatefrom p, form_s_postdateto p,
    form_max_messages p, form_max_pages p⟩
  · rw [form_s_fname]
    by_cases h1 : truthy p.author_first_name = true
    · simp [h1]
    · by_cases h2 : truthy p.keyword = true <;> simp [formStr, h1, h2]
  · rw [form_s_lname]
    by_cases h : truthy p.author_last_name = true <;> simp [formStr, h]
  · rw [form_s_postedby]
    by_cases h : truthy p.posted_by = true <;> simp [formStr, h]
  · rw [form_s_key_all]
    by_cases h : truthy p.keywords_all = true <;> simp [formStr, h]
  · rw [form_s_key_phrase]
    by_cases h : truthy p.keywords_phrase = true <;> simp [formStr, h]
  · rw [form_s_key_one]
    by_cases h : truthy p.keywords_any = true <;> simp [formStr, h]
  · rw [form_s_key_x]
    by_cases h : truthy p.keywords_exclude = true <;> simp [formStr, h]
  · rw [form_s_list]
    by_cases h : p.listserv = "all" <;> simp [h]
  · rw [form_s_cat]
    by_cases h : p.search_in = "subject_only" <;> simp [h]
  · rw [form_s_attachment]
    by_cases h1 : p.attachment_filter = "with_attachments"
    · simp [h1]
    · by_cases h2 : p.attachment_filter = "without_attachments" <;>
        simp [h1, h2]

/-! ## Store and worker preservation lemmas -/

theorem gocm_searchResults (db : DBState) (mid : String) (d : MsgData) :
    ((get_or_create_message db mid d).1).searchResults = db.searchResults := by
  unfold get_or_create_message
  rcases findMsg db mid with _ | ⟨i, r⟩ <;> rfl

theorem gocm_synthesis (db : DBState) (mid : String) (d : MsgData) :
    ((get_or_create_message db mid d).1).synthesis = db.synthesis := by
  unfold get_or_create_message
  rcases findMsg db mid with _ | ⟨i, r⟩ <;> rfl

theorem asr_messages (db : DBState) (i p g : Nat) :
    (add_search_result db i p g).messages = db.messages := by
  unfold add_search_result
  split <;> rfl

theorem asr_synthesis (db : DBState) (i p g : Nat) :
    (add_search_result db i p g).synthesis = db.synthesis := by
  unfold add_search_result
  split <;> rfl

theorem asr_searchResults_le (db : DBState) (i p g : Nat) :
    (add_search_result db i p g).searchResults.length ≤
      db.searchResults.length + 1 := by
  unfold add_search_result
  split
  · omega
  · simp

theorem sa_messages (db : DBState) (i : Nat) (a : AnalysisInput) (now : Nat) :
    (save_analysis db i a now).messages = db.messages := by
  unfold save_analysis
  rcases alookup db.analyses i with _ | r <;> rfl

theorem sa_searchResults (db : DBState) (i : Nat) (a : AnalysisInput)
    (now : Nat) :
    (save_analysis db i a now).searchResults = db.searchResults := by
  unfold save_analysis
  rcases alookup db.analyses i with _ | r <;> rfl

theorem sa_synthesis (db : DBState) (i : Nat) (a : AnalysisInput)
    (now : Nat) : (save_analysis db i a now).synthesis = db.synthesis := by
  unfold save_analysis
  rcases alookup db.analyses i with _ | r <;> rfl

theorem storeLoop_synthesis (msgs : List MsgData) :
    ∀ db : DBState, (storeLoop db msgs).synthesis = db.synthesis := by
  induction msgs with
  | nil => intro db; rfl
  | cons m rest ih =>
    intro db
    simp only [storeLoop]
    rw [ih, asr_synthesis, gocm_synthesis]

theorem storeLoop_searchResults_le (msgs : List MsgData) :
    ∀ db : DBState, (storeLoop db msgs).searchResults.length ≤
      db.searchResults.length + msgs.length := by
  induction msgs with
  | nil => intro db; simp [storeLoop]
  | cons m rest ih =>
    intro db
    simp only [storeLoop, List.length_cons]
    calc (storeLoop (add_search_result (get_or_create_message db
          m.caaa_message_id m).1 (get_or_create_message db
          m.caaa_message_id m).2 m.position m.page) rest).searchResults.length
        ≤ (add_search_result (get_or_create_message db m.caaa_message_id
            m).1 (get_or_create_message db m.caaa_message_id m).2 m.position
            m.page).searchResults.length + rest.length := ih _
      _ ≤ ((get_or_create_message db m.caaa_message_id
            m).1.searchResults.length + 1) + rest.length := by
          have := asr_searchResults_le (get_or_create_message db
            m.caaa_message_id m).1 (get_or_create_message db
            m.caaa_message_id m).2 m.position m.page
          omega
      _ = (db.searchResults.length + 1) + rest.length := by
          rw [gocm_searchResults]
      _ ≤ db.searchResults.length + (rest.length + 1) := by omega

theorem find?_append_isSome {α : Type} (p : α → Bool) (l1 l2 : List α) :
    ((l1 ++ l2).find? p).isSome =
      ((l1.find? p).isSome || (l2.find? p).isSome) := by
  induction l1 with
  | nil => simp
  | cons x t ih =>
    cases hb : p x
    · simp only [List.cons_append, List.find?_cons, hb, cond_false, ih]
    · simp [List.cons_append, List.find?_cons, hb, cond_true]

theorem findMsg_gocm_pres (db : DBState) (mid mid' : String) (d : MsgData)
    (h : (findMsg db mid).isSome = true) :
    (findMsg (get_or_create_message db mid' d).1 mid).isSome = true := by
  unfold get_or_create_message
  rcases hf : findMsg db mid' with _ | ⟨i, r⟩
  · simp only [findMsg] at h ⊢
    rw [find?_append_isSome]
    simp [h]
  · exact h

theorem findMsg_gocm_self (db : DBState) (mid : String) (d : MsgData) :
    (findMsg (get_or_create_message db mid d).1 mid).isSome = true := by
  unfold get_or_create_message
  rcases hf : findMsg db mid with _ | ⟨i, r⟩
  · simp only [findMsg] at hf ⊢
    rw [find?_append_isSome]
    simp [List.find?]
  · simp only [findMsg] at hf ⊢
    simp [hf]

theorem findMsg_asr (db : DBState) (i p g : Nat) (mid : String) :
    findMsg (add_search_result db i p g) mid = findMsg db mid := by
  unfold findMsg
  rw [asr_messages]

theorem findMsg_sa (db : DBState) (i : Nat) (a : AnalysisInput) (now : Nat)
    (mid : String) :
    findMsg (save_analysis db i a now) mid = findMsg db mid := by
  unfold findMsg
  rw [sa_messages]

theorem storeLoop_findMsg_mono (msgs : List MsgData) :
    ∀ (db : DBState) (mid : String), (findMsg db mid).isSome = true →
      (findMsg (storeLoop db msgs) mid).isSome = true := by
  induction msgs with
  | nil => intro db mid h; exact h
  | cons m rest ih =>
    intro db mid h
    simp only [storeLoop]
    exact ih _ mid (by rw [findMsg_asr]; exact findMsg_gocm_pres db mid _ m h)

theorem storeLoop_findMsg (msgs : List MsgData) :
    ∀ (db : DBState) (m : MsgData), m ∈ msgs →
      (findMsg (storeLoop db msgs) m.caaa_message_id).isSome = true := by
  induction msgs with
  | nil => intro db m h; exact absurd h (List.not_mem_nil m)
  | cons m0 rest ih =>
    intro db m h
    simp only [storeLoop]
    rcases List.mem_cons.mp h with h1 | h2
    · subst h1
      apply storeLoop_findMsg_mono
      rw [findMsg_asr]
      exact findMsg_gocm_self db m.caaa_message_id m
    · exact ih _ m h2

theorem analyzeLoop_ok_pres (o : MsgData → Except String AnalysisInput)
    (now : Nat) (msgs : List MsgData) :
    ∀ (db : DBState) (cnt : Nat) (db2 : DBState) (c : Nat),
      analyzeLoop db cnt msgs o now = .ok (db2, c) →
      db2.searchResults = db.searchResults ∧ db2.messages = db.messages ∧
        db2.synthesis = db.synthesis := by
  induction msgs with
  | nil =>
    intro db cnt db2 c h
    simp only [analyzeLoop, Except.ok.injEq, Prod.mk.injEq] at h
    rw [← h.1]
    exact ⟨rfl, rfl, rfl⟩
  | cons m rest ih =>
    intro db cnt db2 c h
    rcases hfi : findMsgId db m.caaa_message_id with _ | i
    · simp only [analyzeLoop, hfi] at h
      exact absurd h (by simp)
    · simp only [analyzeLoop, hfi] at h
      by_cases he : analysis_exists db i = true
      · rw [if_pos he] at h
        exact ih db cnt db2 c h
      · rw [if_neg he] at h
        rcases ho : o m with e | a
        · simp only [ho] at h
          exact ih db cnt db2 c h
        · simp only [ho] at h
          have := ih _ _ db2 c h
          rw [sa_searchResults, sa_messages, sa_synthesis] at this
          exact this

theorem analyzeLoop_ok (o : MsgData → Except String AnalysisInput)
    (now : Nat) (msgs : List MsgData) :
    ∀ (db : DBState) (cnt : Nat),
      (∀ m ∈ msgs, (findMsg db m.caaa_message_id).isSome = true) →
      ∃ db2 c, analyzeLoop db cnt msgs o now = .ok (db2, c) := by
  induction msgs with
  | nil => intro db cnt _; exact ⟨db, cnt, rfl⟩
  | cons m rest ih =>
    intro db cnt hinv
    have hm : (findMsg db m.caaa_message_id).isSome = true :=
      hinv m (by simp)
    rcases hfi : findMsg db m.caaa_message_id with _ | ⟨i, r⟩
    · rw [hfi] at hm; simp at hm
    · have hfid : findMsgId db m.caaa_message_id = some i := by
        simp [findMsgId, hfi]
      simp only [analyzeLoop, hfid]
      by_cases he : analysis_exists db i = true
      · rw [if_pos he]
        exact ih db cnt (fun m' hm' => hinv m' (by simp [hm']))
      · rw [if_neg he]
        rcases ho : o m with e | a
        · simp only [ho]
          exact ih db cnt (fun m' hm' => hinv m' (by simp [hm']))
        · simp only [ho]
          exact ih _ _ (fun m' hm' => by
            rw [findMsg_sa]
            exact hinv m' (by simp [hm']))

theorem analyzeLoop_after_store (msgs : List MsgData)
    (o : MsgData → Except String AnalysisInput) (now : Nat) :
    ∃ db2 c, analyzeLoop (storeLoop {} msgs) 0 msgs o now = .ok (db2, c) :=
  analyzeLoop_ok o now msgs (storeLoop {} msgs) 0
    (fun m hm => storeLoop_findMsg msgs {} m hm)

/-! ## Claim C10: the date parser is total and NULL dates persist -/

/-- Claim C10 (confirmed): `_parse_date` is total by construction (it is a
plain function here, and the only raising operation in the source sits
under a bare `except`); it returns a formatted string exactly when the
input has three `/`-separated parts, interprets a two-digit year as
`20YY`, zero-pads month and day, and a record whose `post_date` is absent
is still created and persisted with a NULL `post_date` by
`get_or_create_message`. -/
theorem C10_parse_date_safety (s : String) :
    ((parse_date s).isSome ↔ (splitChar '/' s.data).length = 3) ∧
    parse_date "10/29/25" = some "2025-10-29" ∧
    parse_date "1/2/25" = some "2025-01-02" ∧
    parse_date "" = none ∧
    parse_date "not a date" = none ∧
    (∀ y < 100, 10 ≤ y →
      parse_date ("10/29/" ++ natStr y) =
        some ("20" ++ natStr y ++ "-10-29")) ∧
    ((get_or_create_message {} "123"
        { caaa_message_id := "123", post_date := none, from_name := none,
          from_email := none, listserv := none, subject := none,
          body := some "hello", has_attachment := false, position := 1,
          page := 1 }).1.messages.map (fun e => e.2.post_date)) = [none] := by
  refine ⟨?_, by decide, by decide, by decide, by decide, by decide,
    by decide⟩
  rcases hsp : splitChar '/' s.data with _ | ⟨a, _ | ⟨b, _ | ⟨c, _ | d⟩⟩⟩ <;>
    simp [parse_date, hsp]

/-! ## Claim C3: deduplication keeps the first body unchanged -/

/-- Claim C3 falls on the body-merge half: `get_or_create_message` returns
the existing row untouched, so after a second sighting with a longer body
the persisted body is still the first one ("ab"), not the longer
"abcd". -/
theorem C3_body_counterexample :
    ((get_or_create_message
        (get_or_create_message {} "123"
          { sampleMsg "123" 1 with body := some "ab" }).1 "123"
        { sampleMsg "123" 1 with body := some "abcd" }).1.messages.map
          (fun e => e.2.body)) = [some "ab"] ∧
    (get_or_create_message
        (get_or_create_message {} "123"
          { sampleMsg "123" 1 with body := some "ab" }).1 "123"
        { sampleMsg "123" 1 with body := some "abcd" }).1 =
      (get_or_create_message {} "123"
        { sampleMsg "123" 1 with body := some "ab" }).1 ∧
    ("ab" : String).length < ("abcd" : String).length := by
  decide

/-- Claim C3 (amended): a message sighted twice still collapses to exactly
one row, but the second sighting leaves the Store byte-for-byte unchanged
— the persisted body is the body of the first fetch, whatever the second
fetch returned (there is no longer-body merge in
`Database.get_or_create_message`). -/
theorem C3_dedupe_amended (db : DBState) (mid : String) (d : MsgData)
    (i : Nat) (r : MessageRow) (h : findMsg db mid = some (i, r)) :
    get_or_create_message db mid d = (db, i) := by
  unfold get_or_create_message
  rw [h]

theorem C3_dedupe_witness :
    get_or_create_message
      (get_or_create_message {} "123"
        { sampleMsg "123" 1 with body := some "ab" }).1 "123"
      { sampleMsg "123" 1 with body := some "abcd" } =
    ((get_or_create_message {} "123"
        { sampleMsg "123" 1 with body := some "ab" }).1, 0) :=
  C3_dedupe_amended _ "123" _ 0
    { caaa_message_id := "123", post_date := none, from_name := some "A",
      from_email := none, listserv := some "lawnet", subject := some "s",
      body := some "ab", body_length := 2, has_attachment := false }
    (by decide)

/-! ## Claim C9: the analysis upsert updates only the verdict fields -/

theorem alookup_save_shape (l : List (Nat × AnalysisRow)) (mid : Nat)
    (a : AnalysisInput) (now : Nat) :
    alookup (l.map (fun e =>
      if e.1 = mid then
        (e.1, ({ is_relevant := a.is_relevant
                 confidence := a.confidence
                 ai_reasoning := a.ai_reasoning
                 ai_model := e.2.ai_model
                 ai_tokens_used := e.2.ai_tokens_used
                 ai_cost_usd := e.2.ai_cost_usd
                 analyzed_at := some now } : AnalysisRow))
      else e)) mid =
      (alookup l mid).map (fun r0 =>
        { is_relevant := a.is_relevant
          confidence := a.confidence
          ai_reasoning := a.ai_reasoning
          ai_model := r0.ai_model
          ai_tokens_used := r0.ai_tokens_used
          ai_cost_usd := r0.ai_cost_usd
          analyzed_at := some now }) := by
  induction l with
  | nil => rfl
  | cons e t ih =>
    by_cases h : e.1 = mid
    · simp [alookup, List.find?_cons, h]
    · have hd : (decide (e.1 = mid)) = false := by simp [h]
      simp only [List.map_cons, if_neg h]
      simp only [alookup, List.find?_cons, hd, cond_false] at ih ⊢
      exact ih

/-- Claim C9 (confirmed): a second upsert for an already-analyzed
(search, message) pair rewrites only `is_relevant`, `confidence`,
`ai_reasoning` and `analyzed_at`; the row's originally recorded
`ai_model`, `ai_tokens_used` and `ai_cost_usd` are those of `r`,
untouched (the conclusion's record update carries them over from `r`
verbatim). -/
theorem C9_upsert_frame (db : DBState) (mid : Nat) (a : AnalysisInput)
    (now : Nat) (r : AnalysisRow) (h : alookup db.analyses mid = some r) :
    alookup (save_analysis db mid a now).analyses mid =
      some { r with
             is_relevant := a.is_relevant
             confidence := a.confidence
             ai_reasoning := a.ai_reasoning
             analyzed_at := some now } := by
  unfold save_analysis
  rw [h]
  show alookup (db.analyses.map _) mid = _
  rw [alookup_save_shape, h]
  rfl

theorem C9_upsert_frame_witness :
    alookup (save_analysis (save_analysis {} 5 sampleRelevant 1) 5
      { is_relevant := false, confidence := some 0,
        ai_reasoning := some "no", ai_model := some "m2",
        ai_tokens_used := some 99, ai_cost_usd := some 1 } 7).analyses 5 =
    some { is_relevant := false, confidence := some 0,
           ai_reasoning := some "no", ai_model := some "m",
           ai_tokens_used := some 10, ai_cost_usd := some 0,
           analyzed_at := some 7 } :=
  C9_upsert_frame (save_analysis {} 5 sampleRelevant 1) 5
    { is_relevant := false, confidence := some 0, ai_reasoning := some "no",
      ai_model := some "m2", ai_tokens_used := some 99,
      ai_cost_usd := some 1 } 7
    { is_relevant := true, confidence := some 1, ai_reasoning := some "r",
      ai_model := some "m", ai_tokens_used := some 10,
      ai_cost_usd := some 0, analyzed_at := none }
    (by decide)

/-! ## Claim C8: the result-link count is capped by max_messages -/

theorem ssr_searchResults (db : DBState) (s : SynthesisRecord) :
    (save_synthesis_result db s).searchResults = db.searchResults := rfl

theorem ssr_synthesis (db : DBState) (s : SynthesisRecord) :
    (save_synthesis_result db s).synthesis = some s := rfl

theorem extract_ids_le (pages : List (List PageRow)) (mp mm : Nat) :
    (extract_message_ids pages mp mm).length ≤ mm := by
  simp only [extract_message_ids, List.length_take]
  omega

theorem scrape_le (pages : List (List PageRow))
    (fo : MsgInfo → Option CleanData) (p : SearchParams) :
    (scrape pages fo p).length ≤ p.max_messages :=
  le_trans (List.length_filterMap_le _ _)
    (extract_ids_le pages p.max_pages p.max_messages)

theorem worker_searchResults_le (q qt : String) (ai : Bool)
    (msgs : List MsgData) (so : MsgData → Except String AnalysisInput)
    (syo : String → List RelRow → Except String SynthesisRecord)
    (now : Nat) :
    (run_search_worker q qt ai msgs so syo now).db.searchResults.length ≤
      msgs.length := by
  have hs : (storeLoop {} msgs).searchResults.length ≤ msgs.length := by
    have := storeLoop_searchResults_le msgs {}
    simpa using this
  unfold run_search_worker
  by_cases hqt : qt = "doctor_evaluation"
  · rw [if_pos hqt]
    by_cases hc : ai = true ∧ 0 < msgs.length
    · rw [if_pos hc]
      rcases hA : analyzeLoop (storeLoop {} msgs) 0 msgs so now with e | r
      · exact hs
      · obtain ⟨db2, c⟩ := r
        have hpres := (analyzeLoop_ok_pres so now msgs _ 0 db2 c hA).1
        simp only
        split
        · split
          · rw [ssr_searchResults, hpres]
            exact hs
          · rw [ssr_searchResults, hpres]
            exact hs
        · rw [ssr_searchResults, hpres]
          exact hs
    · rw [if_neg hc]
      split
      · rw [ssr_searchResults]
        exact hs
      · exact hs
  · rw [if_neg hqt]
    by_cases hc : ai = true ∧ 0 < msgs.length
    · rw [if_pos hc]
      rcases hA : analyzeLoop (storeLoop {} msgs) 0 msgs so now with e | r
      · exact hs
      · obtain ⟨db2, c⟩ := r
        have hpres := (analyzeLoop_ok_pres so now msgs _ 0 db2 c hA).1
        simp only
        rw [hpres]
        exact hs
    · rw [if_neg hc]
      exact hs

/-- Claim C8 (confirmed): the Retriever trims its collected id list to
`max_messages` before per-message fetching (`message_ids[:max_messages]`),
fetch failures can only shrink the list, and the worker links at most one
result row per fetched message, so a terminated search carries at most
`spec.max_messages` SearchResult links. -/
theorem C8_max_messages_bound (pages : List (List PageRow))
    (fo : MsgInfo → Option CleanData) (p : SearchParams) (q qt : String)
    (ai : Bool) (so : MsgData → Except String AnalysisInput)
    (syo : String → List RelRow → Except String SynthesisRecord)
    (now : Nat) :
    (scrape pages fo p).length ≤ p.max_messages ∧
    (run_search_worker q qt ai (scrape pages fo p) so syo
      now).db.searchResults.length ≤ p.max_messages :=
  ⟨scrape_le pages fo p,
   le_trans (worker_searchResults_le q qt ai (scrape pages fo p) so syo now)
     (scrape_le pages fo p)⟩

/-! ## Claim C1: synthesis exists only for doctor evaluations -/

/-- Claim C1 falls on every evaluation mode except doctor: a completed
judge-evaluation search with three relevant analyses still has no
SynthesisResult, because the worker's synthesis stage is guarded by
`query_type == "doctor_evaluation"` alone (src/run_search_worker.py line
128). -/
theorem C1_synthesis_counterexample :
    (run_search_worker "Evaluate judge: Judge Dobrin" "judge_evaluation"
      true [sampleMsg "1" 1, sampleMsg "2" 2, sampleMsg "3" 3]
      (fun _ => .ok sampleRelevant)
      (fun _ _ => .ok { score := 80, evaluation := "good", reasoning := "r" })
      0).status = "completed" ∧
    (run_search_worker "Evaluate judge: Judge Dobrin" "judge_evaluation"
      true [sampleMsg "1" 1, sampleMsg "2" 2, sampleMsg "3" 3]
      (fun _ => .ok sampleRelevant)
      (fun _ _ => .ok { score := 80, evaluation := "good", reasoning := "r" })
      0).totalRelevant = some 3 ∧
    (run_search_worker "Evaluate judge: Judge Dobrin" "judge_evaluation"
      true [sampleMsg "1" 1, sampleMsg "2" 2, sampleMsg "3" 3]
      (fun _ => .ok sampleRelevant)
      (fun _ _ => .ok { score := 80, evaluation := "good", reasoning := "r" })
      0).db.synthesis = none ∧
    "judge_evaluation" ∈ evaluationModes := by
  decide

/-- Claim C1 (amended): a completed search has a SynthesisResult exactly
when its query type is `doctor_evaluation` and either the scorer is
available or no message was retrieved — every other evaluation mode
completes without one, and a doctor evaluation with fewer than three
relevant analyses still persists the `{score 0, insufficient_data}` record
directly, bypassing the Synthesizer (the result does not depend on the
synthesis oracle). -/
theorem C1_synthesis_amended (q qt : String) (ai : Bool)
    (msgs : List MsgData) (so : MsgData → Except String AnalysisInput)
    (syo : String → List RelRow → Except String SynthesisRecord)
    (now : Nat) :
    ((run_search_worker q qt ai msgs so syo now).db.synthesis.isSome ↔
      (qt = "doctor_evaluation" ∧ (ai = true ∨ msgs = []))) ∧
    ((run_search_worker q qt ai msgs so syo now).status = "completed") ∧
    (∀ (db2 : DBState) (c : Nat),
      analyzeLoop (storeLoop {} msgs) 0 msgs so now = .ok (db2, c) →
      qt = "doctor_evaluation" → ai = true → msgs ≠ [] →
      (relevantRows db2).length < 3 →
      (run_search_worker q qt ai msgs so syo now).db.synthesis =
        some (insufficient_synthesis
          (pyStrip (pyReplace q "Evaluate doctor:" ""))
          (relevantRows db2).length) ∧
      (∀ syo2, run_search_worker q qt ai msgs so syo2 now =
        run_search_worker q qt ai msgs so syo now)) := by
  have hnone : (storeLoop {} msgs).synthesis = none := by
    rw [storeLoop_synthesis]
  refine ⟨?_, ?_, ?_⟩
  · -- existence iff
    unfold run_search_worker
    by_cases hqt : qt = "doctor_evaluation"
    · rw [if_pos hqt]
      by_cases hc : ai = true ∧ 0 < msgs.length
      · rw [if_pos hc]
        obtain ⟨db2, c, hA⟩ := analyzeLoop_after_store msgs so now
        rw [hA]
        simp only
        constructor
        · intro _
          exact ⟨hqt, Or.inl hc.1⟩
        · intro _
          split
          · split
            · rw [ssr_synthesis]; rfl
            · rw [ssr_synthesis]; rfl
          · rw [ssr_synthesis]; rfl
      · rw [if_neg hc]
        by_cases h0 : msgs.length = 0
        · rw [if_pos h0]
          simp only [ssr_synthesis, Option.isSome_some, true_iff]
          exact ⟨hqt, Or.inr (List.length_eq_zero.mp h0)⟩
        · rw [if_neg h0]
          simp only [hnone, Option.isSome_none, Bool.false_eq_true,
            false_iff]
          rintro ⟨-, hor⟩
          rcases hor with hai | hnil
          · exact hc ⟨hai, by omega⟩
          · subst hnil
            exact h0 rfl
    · rw [if_neg hqt]
      have hrhs : ¬(qt = "doctor_evaluation" ∧ (ai = true ∨ msgs = [])) :=
        fun hcon => hqt hcon.1
      by_cases hc : ai = true ∧ 0 < msgs.length
      · rw [if_pos hc]
        rcases hA : analyzeLoop (storeLoop {} msgs) 0 msgs so now with e | r
        · simp [hnone, hrhs]
        · obtain ⟨db2, c⟩ := r
          have hpres := (analyzeLoop_ok_pres so now msgs _ 0 db2 c hA).2.2
          simp only
          rw [hpres, hnone]
          simp [hrhs]
      · rw [if_neg hc]
        simp [hnone, hrhs]
  · -- always completed
    unfold run_search_worker
    by_cases hqt : qt = "doctor_evaluation"
    · rw [if_pos hqt]
      by_cases hc : ai = true ∧ 0 < msgs.length
      · rw [if_pos hc]
        obtain ⟨db2, c, hA⟩ := analyzeLoop_after_store msgs so now
        rw [hA]
      · rw [if_neg hc]
        split <;> rfl
    · rw [if_neg hqt]
      by_cases hc : ai = true ∧ 0 < msgs.length
      · rw [if_pos hc]
        obtain ⟨db2, c, hA⟩ := analyzeLoop_after_store msgs so now
        rw [hA]
      · rw [if_neg hc]
  · -- insufficient-data path
    intro db2 c hA hqt hai hnil h3
    have hc : ai = true ∧ 0 < msgs.length :=
      ⟨hai, by cases msgs with
        | nil => exact absurd rfl hnil
        | cons m rest => simp⟩
    have key : ∀ s', run_search_worker q qt ai msgs so s' now =
        { status := "completed", totalFound := some msgs.length,
          totalRelevant := some c,
          db := save_synthesis_result db2 (insufficient_synthesis
            (pyStrip (pyReplace q "Evaluate doctor:" ""))
            (relevantRows db2).length) } := by
      intro s'
      unfold run_search_worker
      rw [if_pos hqt, if_pos hc, hA]
      simp only
      rw [if_neg (by omega)]
    constructor
    · simp only [key syo, ssr_synthesis]
    · intro syo2
      rw [key syo2, key syo]

theorem C1_synthesis_witness :
    (run_search_worker "Evaluate doctor: Dr. X" "doctor_evaluation" true
      [sampleMsg "1" 1] (fun _ => .ok sampleRelevant)
      (fun _ _ => .error "never") 0).db.synthesis.isSome = true ∧
    (run_search_worker "Evaluate doctor: Dr. X" "doctor_evaluation" true
      [sampleMsg "1" 1] (fun _ => .ok sampleRelevant)
      (fun _ _ => .error "never") 0).status = "completed" :=
  ⟨(C1_synthesis_amended "Evaluate doctor: Dr. X" "doctor_evaluation" true
      [sampleMsg "1" 1] (fun _ => .ok sampleRelevant)
      (fun _ _ => .error "never") 0).1.mpr ⟨rfl, Or.inl rfl⟩,
   (C1_synthesis_amended "Evaluate doctor: Dr. X" "doctor_evaluation" true
      [sampleMsg "1" 1] (fun _ => .ok sampleRelevant)
      (fun _ _ => .error "never") 0).2.1⟩

/-- C2: the Scorer's response parser does NOT extract the JSON island
from a prose-wrapped reply.  Its pattern mistypes `[\s\S]` as the
literal class `[sS]` (src/ai_analyzer.py line 583), so it can only match
a brace pair holding `s`/`S` characters: on a reply with prose around
the verdict object the search fails, `json.loads` then chokes on the
prose, and the parser returns the fail-closed default verdict instead of
the contained one — even though the island, as extracted by the correct
pattern the sibling parsers use, parses to the true verdict.  Only a
reply that is pure JSON yields the contained verdict. -/
theorem C2_scorer_island_bug :
    ai_parse_response "Looking at the message, here is my verdict: \x7b\"is_relevant\": true, \"confidence\": 0.9, \"reasoning\": \"Directly discusses the doctor.\"\x7d" =
      .ok { is_relevant := false, confidence := 0,
            reasoning := "Failed to parse AI response" } ∧
    ssSearch "Looking at the message, here is my verdict: \x7b\"is_relevant\": true, \"confidence\": 0.9, \"reasoning\": \"Directly discusses the doctor.\"\x7d".data = none ∧
    (islandSearch "Looking at the message, here is my verdict: \x7b\"is_relevant\": true, \"confidence\": 0.9, \"reasoning\": \"Directly discusses the doctor.\"\x7d".data).map String.mk =
      some "\x7b\"is_relevant\": true, \"confidence\": 0.9, \"reasoning\": \"Directly discusses the doctor.\"\x7d" ∧
    ai_parse_response "\x7b\"is_relevant\": true, \"confidence\": 0.9, \"reasoning\": \"Directly discusses the doctor.\"\x7d" =
      .ok { is_relevant := true, confidence := mkRat 9 10,
            reasoning := "Directly discusses the doctor." } :=
  ⟨rfl, rfl, rfl, rfl⟩

/-- C5 counterexample: for the judge-evaluation intent
`Evaluate judge: Judge Dobrin` the planner used by the request path
(`run_search_async`) sets `keywords_all` to the stripped name `Dobrin`
(not empty) and `keywords_any` to a fixed list of context words, not the
deduplicated name-variant union the claim describes; that union —
exactly the claim's example string — is what `enhance_judge_query`
would produce (with `keywords_all` empty), but the request path never
calls it. -/
theorem C5_judge_planner_counterexample :
    (planSearchAI (fun _ => .error "llm") (fun _ _ => .error "llm")
      "judge_evaluation" "Evaluate judge: Judge Dobrin" 100 10).keywords_all
      = some "Dobrin" ∧
    (planSearchAI (fun _ => .error "llm") (fun _ _ => .error "llm")
      "judge_evaluation" "Evaluate judge: Judge Dobrin" 100 10).keywords_any
      = some judge_context_terms ∧
    judge_context_terms ≠ "Judge Dobrin, Dobrin, Hon. Dobrin, Hon Dobrin, WCJ Dobrin, Honorable Dobrin, Dobrin WCJ" ∧
    (enhance_judge_query "Judge Dobrin").keywords_any =
      some "Judge Dobrin, Dobrin, Hon. Dobrin, Hon Dobrin, WCJ Dobrin, Honorable Dobrin, Dobrin WCJ" ∧
    (enhance_judge_query "Judge Dobrin").keywords_all = none := by
  refine ⟨rfl, rfl, ?_, rfl, rfl⟩
  decide

/-- C5 (amended): the judge-evaluation planner is deterministic — the
same `SearchParams` for any behaviour of the two LLM oracles — but what
it builds is `keywords_all` = the intent with the `Evaluate judge:`
marker and the title words `Judge `, `Hon. `, `Hon `, `WCJ `,
`Honorable ` removed, and `keywords_any` = the fixed judge context
terms; the name-variant union of `enhance_judge_query` is not on this
path. -/
theorem C5_judge_planner_amended (o1 o2 : String → Except String String)
    (a1 a2 : String → Option String → Except String String)
    (intent : String) (mm mp : Nat) :
    planSearchAI o1 a1 "judge_evaluation" intent mm mp =
      planSearchAI o2 a2 "judge_evaluation" intent mm mp ∧
    (planSearchAI o1 a1 "judge_evaluation" intent mm mp).keywords_all =
      some (pyStrip (pyReplace (pyReplace (pyReplace (pyReplace (pyReplace
        (pyStrip (pyReplace intent "Evaluate judge:" "")) "Judge " "")
        "Hon. " "") "Hon " "") "WCJ " "") "Honorable " "")) ∧
    (planSearchAI o1 a1 "judge_evaluation" intent mm mp).keywords_any =
      some judge_context_terms := ⟨rfl, rfl, rfl⟩

/-- C6 counterexample: with the reasoning client unconfigured the
Clarifier does not fail open to the `specific` outcome — the endpoint's
own `HTTPException(503)` is swallowed by its catch-all handler and
re-raised as a 500 error, blocking the request; likewise a raising
vagueness call surfaces as a 500 error. -/
theorem C6_clarifier_counterexample :
    ai_analyze false (.ok "\x7b\"is_vague\": false\x7d") (.ok "x")
      "find QME messages" =
      .httpError 500 "503: AI service not available" ∧
    ai_analyze true (.error "APIConnectionError") (.ok "x")
      "find QME messages" = .httpError 500 "APIConnectionError" :=
  ⟨rfl, rfl⟩

/-- C6 (amended): the Clarifier fails CLOSED, not open: whenever the
reasoning service is unavailable — the client is not configured, or the
vagueness call raises — `ai_analyze` returns an HTTP 500 error (for the
unconfigured client, with the swallowed 503's rendering as its detail),
for every reply content and intent; it never falls through to the
`specific` (suggestions) outcome. -/
theorem C6_clarifier_amended (vr er : Except String String)
    (intent e : String) :
    ai_analyze false vr er intent =
      .httpError 500 "503: AI service not available" ∧
    ai_analyze true (.error e) er intent = .httpError 500 e :=
  ⟨rfl, rfl⟩
